import Mathlib

/-!
Shallow embedding of the hybrid relevance ranking engine of `src/search.py`
(`semantic_search_products`, `hybrid_search_products` and their scoring
helpers), together with theorems settling the specification claims.

Modelling conventions:
* Python `float` scores are modelled as `ℚ` (the claims are about the exact
  arithmetic structure of the pipeline, not floating-point rounding).
* Python strings are `String`; `x in y` substring tests are `pyIn`,
  `str.lower()` is `pyLower` (ASCII lowering, the identity on the CJK
  characters appearing in the keyword tables, as in Python).
* Python dict metadata is the structure `Metadata`; a missing key is `none`.
* The external vector backend call
  `vectorstore.similarity_search_with_relevance_scores` is modelled by the
  input `Option (Except Unit (List (Document × ℚ)))`: `none` models
  `vectorstore_updater is None`, `Except.error ()` models the backend call
  raising (the code catches every exception), `Except.ok rs` models the
  returned scored documents.  Similarly the BM25 retrieval of the hybrid
  ranker is the input `Except Unit (List Document)`: `Except.error ()` models
  `ImportError` or any exception inside the `try` block (including the
  `NameError` taken when no documents are available for the BM25 index) —
  both `except` branches of the source fall back identically.
* `list.sort(key=..., reverse=True)` is the stable insertion sort
  `pySortDesc`; `l[:k]` is `pySlice`; `round(x, 4)` is `pyRound4`
  (round-half-to-even, as in Python).
-/

/-- Python `a in b` on lists of characters: `charsPre n h` is true when `n`
is a leading block of `h`. -/
def charsPre : List Char → List Char → Bool
  | [], _ => true
  | _ :: _, [] => false
  | a :: as, b :: bs => a == b && charsPre as bs

/-- Here `charsSub n h` is true when `n` occurs contiguously inside `h`
(Python substring containment; the empty needle always matches). -/
def charsSub : List Char → List Char → Bool
  | n, [] => n.isEmpty
  | n, c :: rest => charsPre n (c :: rest) || charsSub n rest

/-- Python `needle in hay` on strings. -/
def pyIn (needle hay : String) : Bool := charsSub needle.data hay.data

/-- Python `str.lower()` (ASCII case folding; CJK characters are fixed). -/
def pyLower (s : String) : String := ⟨s.data.map Char.toLower⟩

/-- Python `str.strip()`. -/
def pyStrip (s : String) : String :=
  ⟨((s.data.dropWhile Char.isWhitespace).reverse.dropWhile Char.isWhitespace).reverse⟩

/-- Python `sep.join(l)`. -/
def sjoin (sep : String) : List String → String
  | [] => ""
  | [x] => x
  | x :: y :: rest => x ++ sep ++ sjoin sep (y :: rest)

/-- Python falsy-coalescing `a or b` for an optional string: `None` and the
empty string both fall through to the default. -/
def orElseNE (v : Option String) (d : String) : String :=
  match v with
  | some s => if s = "" then d else s
  | none => d

/-- Python `l[:k]` (a negative stop counts from the end of the list). -/
def pySlice {α : Type} (k : ℤ) (l : List α) : List α :=
  if 0 ≤ k then l.take k.toNat else l.take ((l.length : ℤ) + k).toNat

/-- Python `round` to an integer: round half to even. -/
def pyRoundInt (q : ℚ) : ℤ :=
  let f := ⌊q⌋
  let frac := q - f
  if frac < 1/2 then f
  else if 1/2 < frac then f + 1
  else if f % 2 = 0 then f else f + 1

/-- Python `round(q, 4)`. -/
def pyRound4 (q : ℚ) : ℚ := ((pyRoundInt (q * 10000) : ℤ) : ℚ) / 10000

-- ========== DATA MODEL ==========

/-- The metadata dict of one document; a missing key is `none`.  `features`
is the one list-valued field used by the code. -/
structure Metadata where
  product_id : Option String := none
  product_name : Option String := none
  name : Option String := none
  description : Option String := none
  category : Option String := none
  price : Option String := none
  source : Option String := none
  features : Option (List String) := none
deriving DecidableEq

/-- A retrieved document: page content plus metadata. -/
structure Document where
  page_content : String
  metadata : Metadata
deriving DecidableEq

/-- One result dict of either entry point.  The semantic ranker fills
`content` and leaves the two fusion components `none`; the hybrid ranker
fills the components and has no `content` key. -/
structure SearchResult where
  product_name : String
  category : String
  price : String
  similarity_score : ℚ
  content : Option String
  bm25_component : Option ℚ
  vector_component : Option ℚ
  metadata : Metadata
deriving DecidableEq

/-- Stable descending insertion by `similarity_score`: an element is placed
before the first strictly smaller one, so earlier list elements precede
later ones of equal score. -/
def insertDescBy (a : SearchResult) : List SearchResult → List SearchResult
  | [] => [a]
  | b :: bs =>
    if b.similarity_score ≤ a.similarity_score then a :: b :: bs
    else b :: insertDescBy a bs

/-- Python `list.sort(key=lambda x: x["similarity_score"], reverse=True)`:
a stable descending sort. -/
def pySortDesc (l : List SearchResult) : List SearchResult :=
  l.foldr insertDescBy []

-- ========== CATEGORY MAPPING & KEYWORDS (src/search.py lines 10-25) ==========

/-- The `CATEGORY_KEYWORDS` table, in declaration order. -/
def CATEGORY_KEYWORDS : List (String × List String) :=
  [("音頻設備", ["喇叭", "音箱", "音響", "speaker", "耳機", "headphone", "earbud", "麥克風", "mic", "音頻"]),
   ("家具", ["椅子", "椅", "桌子", "桌", "沙發", "床", "家具", "furniture"]),
   ("生活家電", ["風扇", "清淨", "機器人", "掃地", "清潔", "消毒", "盒"]),
   ("電腦周邊", ["鍵盤", "滑鼠", "鼠標", "顯示器", "monitor", "鍵", "keyboard", "mouse", "周邊", "護眼", "螢幕燈", "螢幕掛燈", "護眼燈", "護目"]),
   ("穿戴式裝置", ["手錶", "手環", "智能", "穿戴", "wearable", "watch", "band"]),
   ("家庭娛樂", ["投影", "投影機", "cinema", "螢幕", "顯示", "娛樂"]),
   ("儲存設備", ["ssd", "硬碟", "存儲", "儲存", "storage", "硬盤"]),
   ("廚房家電", ["咖啡", "咖啡機", "coffee", "廚房"]),
   ("個人護理", ["牙刷", "吹風機", "護理", "美容"]),
   ("手機配件", ["電源", "行動", "手機", "充電", "配件"]),
   ("網路設備", ["路由器", "wifi", "網路", "router"]),
   ("攝影器材", ["攝影機", "相機", "camera"]),
   ("智慧家居", ["門鈴", "智能", "智慧", "smart", "home"]),
   ("運動器材", ["瑜珈", "運動", "sport"])]

/-- Source `infer_target_categories_from_query` (lines 42-55).  The source builds a
Python `set` and returns `list(set(...))` whose order is unspecified; every
use of the result (membership tests, `any`, per-category sums) is
order-insensitive, so the model returns the categories in table order. -/
def infer_target_categories_from_query (query : String) : List String :=
  (CATEGORY_KEYWORDS.filter (fun ck =>
    ck.2.any (fun keyword => pyIn (pyLower keyword) (pyLower query)))).map Prod.fst

/-- Source `calculate_category_weight` (lines 57-99).  The local `related_boost`
mirrors the source: it is assigned and never read afterwards. -/
def calculate_category_weight (product_category : String) (target_categories : List String)
    (_boost_keywords : Option (List String)) : ℚ :=
  if target_categories.isEmpty then 1
  else if target_categories.contains product_category then 2
  else
    let related_boost : ℚ :=
      if pyIn "生活家電" product_category || target_categories.contains "生活家電" then 13/10 else 1
    if target_categories.any (fun cat => pyIn "音頻" cat || pyIn "喇叭" cat) &&
       (pyIn "音頻" product_category || pyIn "喇叭" product_category) then 2
    else if target_categories.contains "家庭娛樂" && pyIn "投影" product_category then 3/2
    else 7/10

/-- The text candidates collected from the metadata keys
`('product_name', 'name', 'description', 'features')`, in that order, a
list-valued entry joined by spaces (lines 117-126 and 152-160). -/
def metaContentCandidates (m : Metadata) : List String :=
  m.product_name.toList ++ m.name.toList ++ m.description.toList ++
    (m.features.map (fun fs => sjoin " " fs)).toList

/-- Source `is_product_matching_categories` (lines 102-135). -/
def is_product_matching_categories (metadata : Metadata) (target_categories : List String) : Bool :=
  if target_categories.isEmpty then true
  else
    let prod_cat := pyStrip (metadata.category.getD "")
    if prod_cat != "" && target_categories.contains prod_cat then true
    else
      let content_lower := pyLower (sjoin " " (metaContentCandidates metadata))
      target_categories.any (fun cat =>
        ((CATEGORY_KEYWORDS.lookup cat).getD []).any (fun kw => pyIn (pyLower kw) content_lower))

/-- The `(total_hits, total_possible)` keyword counts of
`compute_category_match_score` (lines 162-171): categories with no known
keywords contribute to neither count. -/
def catHitCounts (content : String) (target_categories : List String) : ℕ × ℕ :=
  target_categories.foldl (fun acc cat =>
    let kw_list := (CATEGORY_KEYWORDS.lookup cat).getD []
    if kw_list.isEmpty then acc
    else ((kw_list.filter (fun kw => pyIn (pyLower kw) content)).length + acc.1,
          kw_list.length + acc.2)) (0, 0)

/-- Source `compute_category_match_score` (lines 138-179). -/
def compute_category_match_score (metadata : Metadata) (target_categories : List String) : ℚ :=
  if target_categories.isEmpty then 1
  else
    let prod_cat := pyStrip (metadata.category.getD "")
    if prod_cat != "" && target_categories.contains prod_cat then 1
    else
      let content := pyLower (sjoin " " (metaContentCandidates metadata))
      let hp := catHitCounts content target_categories
      if hp.2 = 0 then 1/2
      else min 1 ((hp.1 : ℚ) / ((max 1 (min hp.2 4) : ℕ) : ℚ))

/-- The `ATTRIBUTE_KEYWORDS` table local to `compute_attribute_match_score`
(lines 190-199). -/
def ATTRIBUTE_KEYWORDS : List (String × List String) :=
  [("防水", ["防水", "waterproof"]),
   ("降噪", ["降噪", "noise-canceling", "anc"]),
   ("快充", ["快充", "快速充電", "quick charge", "fast"]),
   ("續航", ["續航", "battery", "長效", "endurance"]),
   ("護眼", ["護眼", "護目", "防藍光", "blue light"]),
   ("高清", ["4k", "8k", "高清", "高精", "ultra"]),
   ("輕量", ["輕", "小", "compact", "portable"]),
   ("靜音", ["靜音", "無聲", "quiet", "silent"])]

/-- The `(matched_attrs, total_attrs)` counts of
`compute_attribute_match_score` (lines 215-226): per attribute only the
first keyword mentioned in the query is examined (`break`). -/
def attrCounts (query_lower product_text : String) : ℕ × ℕ :=
  ATTRIBUTE_KEYWORDS.foldl (fun acc a =>
    match a.2.find? (fun kw => pyIn (pyLower kw) query_lower) with
    | some kw => ((if pyIn (pyLower kw) product_text then 1 else 0) + acc.1, acc.2 + 1)
    | none => acc) (0, 0)

/-- Source `compute_attribute_match_score` (lines 182-233). -/
def compute_attribute_match_score (metadata : Metadata) (query : String) : ℚ :=
  let query_lower := pyLower query
  let features_str := pyLower (sjoin " " (metadata.features.getD []))
  let name := pyLower (orElseNE metadata.name (orElseNE metadata.product_name ""))
  let description := pyLower (metadata.description.getD "")
  let product_text := pyLower (name ++ " " ++ description ++ " " ++ features_str)
  let mt := attrCounts query_lower product_text
  if mt.2 = 0 then 1/2
  else (mt.1 : ℚ) / ((max 1 mt.2 : ℕ) : ℚ)

/-- The `PRODUCT_TYPES` table local to `compute_product_type_match_score`
(lines 244-254), in declaration order. -/
def PRODUCT_TYPES : List (String × List String) :=
  [("喇叭", ["喇叭", "speaker", "音箱"]),
   ("耳機", ["耳機", "earbuds", "headphones", "pods", "earbud"]),
   ("麥克風", ["麥克風", "microphone", "mic"]),
   ("椅子", ["椅子", "椅", "chair"]),
   ("鍵盤", ["鍵盤", "keyboard"]),
   ("滑鼠", ["滑鼠", "鼠標", "mouse"]),
   ("顯示器", ["顯示器", "monitor", "螢幕"]),
   ("手錶", ["手錶", "watch"]),
   ("投影", ["投影", "投影機", "projector"])]

/-- The first loop of `compute_product_type_match_score` (lines 262-269):
for each product type in table order, the first keyword of that type found
in the query is tested against the product name; a hit returns `1.0`, a
miss `break`s on to the NEXT type. -/
def scanTypes (query_lower product_name : String) : List (String × List String) → Option ℚ
  | [] => none
  | t :: rest =>
    match t.2.find? (fun kw => pyIn (pyLower kw) query_lower) with
    | some kw =>
      if pyIn (pyLower kw) product_name then some 1
      else scanTypes query_lower product_name rest
    | none => scanTypes query_lower product_name rest

/-- Source `compute_product_type_match_score` (lines 236-279). -/
def compute_product_type_match_score (metadata : Metadata) (query : String) : ℚ :=
  let query_lower := pyLower query
  let product_name := pyLower (orElseNE metadata.name (orElseNE metadata.product_name ""))
  match scanTypes query_lower product_name PRODUCT_TYPES with
  | some v => v
  | none =>
    if PRODUCT_TYPES.any (fun t => t.2.any (fun kw => pyIn (pyLower kw) query_lower)) then 3/10
    else 3/5

-- ========== SHARED SCORE-ADJUSTMENT STEPS ==========

/-- The `alpha = 0.45` match-score boost, `score * (1 + 0.45*match_score)`
(lines 370-372 and 584-586). -/
def applyMatchBoost (m f : ℚ) : ℚ := f * (1 + (45/100) * m)

/-- The attribute boost, `beta = 0.3` (lines 376-380 and 588-592). -/
def applyAttrBoost (a f : ℚ) : ℚ := if 1/2 < a then f * (1 + (3/10) * a) else f

/-- The product-type adjustment (lines 384-390 and 594-601). -/
def applyTypeAdjust (ts f : ℚ) : ℚ :=
  if 1 ≤ ts then f * (3/2) else if ts < 1/2 then f * (1/2) else f

/-- The boost-keyword loop (lines 393-398): each matching keyword multiplies
the running score by `1.15`, capped at `1.0` at every step. -/
def applyBoostKeywords (boost_keywords : List String) (content_lower : String) (f : ℚ) : ℚ :=
  boost_keywords.foldl
    (fun s keyword => if pyIn (pyLower keyword) content_lower then min (s * (115/100)) 1 else s) f

/-- The attribute-then-type tail shared verbatim by both entry points. -/
def scoreTail (metadata : Metadata) (query : String) (f : ℚ) : ℚ :=
  applyTypeAdjust (compute_product_type_match_score metadata query)
    (applyAttrBoost (compute_attribute_match_score metadata query) f)

-- ========== SEMANTIC ENTRY POINT (lines 281-431) ==========

/-- The per-call parameters of the semantic loop. -/
structure SemParams where
  query : String
  limit : ℤ
  score_threshold : ℚ
  product_only : Bool
  boost_keywords : Option (List String)
  enable_category_weight : Bool
  target_categories : List String

/-- The body of the result loop of `semantic_search_products`
(lines 324-407): `none` is a `continue`, `some` the appended dict. -/
def semanticStep (p : SemParams) (doc : Document) (score : ℚ) : Option SearchResult :=
  if score < p.score_threshold then none
  else
    let metadata := doc.metadata
    if p.product_only && metadata.source.getD "" != "product_db" then none
    else if p.enable_category_weight && !p.target_categories.isEmpty &&
        !is_product_matching_categories metadata p.target_categories then none
    else
      let product_name :=
        orElseNE metadata.product_name (orElseNE metadata.name (orElseNE metadata.product_id "Unknown"))
      let category := metadata.category.getD ""
      let price := metadata.price.getD ""
      let cw := p.enable_category_weight && !p.target_categories.isEmpty
      let match_score := compute_category_match_score metadata p.target_categories
      if cw && match_score < 12/100 then none
      else
        let final1 :=
          if cw then score * calculate_category_weight category p.target_categories p.boost_keywords
          else score
        let final2 := if cw then applyMatchBoost match_score final1 else final1
        let final3 := scoreTail metadata p.query final2
        let final4 :=
          applyBoostKeywords (p.boost_keywords.getD []) (pyLower (doc.page_content ++ product_name)) final3
        some { product_name := product_name, category := category, price := price,
               similarity_score := pyRound4 (min final4 1),
               content := some doc.page_content,
               bm25_component := none, vector_component := none,
               metadata := metadata }

/-- The result loop with its early `break` once `len(output) >= limit`
(lines 409-411). -/
def semanticCollect (p : SemParams) : List (Document × ℚ) → List SearchResult → List SearchResult
  | [], output => output
  | (doc, score) :: rest, output =>
    match semanticStep p doc score with
    | none => semanticCollect p rest output
    | some entry =>
      let output2 := output ++ [entry]
      if p.limit ≤ (output2.length : ℤ) then output2 else semanticCollect p rest output2

/-- The deduplication loop (lines 416-427): a result with a non-empty
unseen `product_id` is kept and remembered; a result with no `product_id`
is kept without deduplication; a seen id is dropped. -/
def dedupLoop (seen : List String) : List SearchResult → List SearchResult
  | [] => []
  | r :: rest =>
    let product_id := r.metadata.product_id.getD ""
    if product_id != "" && !seen.contains product_id then
      r :: dedupLoop (product_id :: seen) rest
    else if product_id == "" then r :: dedupLoop seen rest
    else dedupLoop seen rest

/-- Source `semantic_search_products` (lines 281-431).  The first argument models
`vectorstore_updater` together with the outcome of the backend similarity
call: `none` for a missing updater (return `[]`), `Except.error` for the
backend raising (the bare `except` returns `[]`), `Except.ok` for the
returned `(document, score)` list. -/
def semantic_search_products (vectorstore_updater : Option (Except Unit (List (Document × ℚ))))
    (query : String) (limit : ℤ) (score_threshold : ℚ) (product_only : Bool)
    (boost_keywords : Option (List String)) (enable_category_weight : Bool) : List SearchResult :=
  match vectorstore_updater with
  | none => []
  | some (Except.error _) => []
  | some (Except.ok results) =>
    let target_categories :=
      if enable_category_weight then infer_target_categories_from_query query else []
    let p : SemParams :=
      ⟨query, limit, score_threshold, product_only, boost_keywords, enable_category_weight,
        target_categories⟩
    pySlice limit (dedupLoop [] (pySortDesc (semanticCollect p results [])))

-- ========== HYBRID ENTRY POINT (lines 434-639) ==========

/-- One fused entry of `merged_results`, keyed by `product_id`. -/
structure MergedData where
  product_name : String
  category : String
  price : String
  bm25_score : ℚ
  vector_score : ℚ
  metadata : Metadata
deriving DecidableEq

/-- Adding one BM25 document (lines 514-538).  `e` carries the position of
the document in the full BM25 result list of length `N`; its rank score is
`1 - i/(N+1)` (lines 489-492; the entries are distinct retriever objects, so
the `id(doc)` keyed score of an entry is exactly its positional score).  A
new `product_id` is appended; a repeated one keeps the maximum score. -/
def addBM25 (product_only : Bool) (N : ℕ) (acc : List (String × MergedData)) (e : ℕ × Document) :
    List (String × MergedData) :=
  let metadata := e.2.metadata
  if product_only && metadata.source != some "product_db" then acc
  else
    let product_id := metadata.product_id.getD ""
    if product_id == "" then acc
    else
      let bm25_score : ℚ := 1 - (e.1 : ℚ) / ((N : ℚ) + 1)
      if acc.any (fun kv => kv.1 == product_id) then
        acc.map (fun kv =>
          if kv.1 == product_id then (kv.1, { kv.2 with bm25_score := max kv.2.bm25_score bm25_score })
          else kv)
      else
        acc ++ [(product_id,
          { product_name := metadata.product_name.getD "", category := metadata.category.getD "",
            price := metadata.price.getD "", bm25_score := bm25_score, vector_score := 0,
            metadata := metadata })]

/-- Adding one vector result (lines 541-560). -/
def addVec (acc : List (String × MergedData)) (r : SearchResult) : List (String × MergedData) :=
  let product_id := r.metadata.product_id.getD ""
  if product_id == "" then acc
  else
    let vector_score := r.similarity_score
    if acc.any (fun kv => kv.1 == product_id) then
      acc.map (fun kv =>
        if kv.1 == product_id then (kv.1, { kv.2 with vector_score := max kv.2.vector_score vector_score })
        else kv)
    else
      acc ++ [(product_id,
        { product_name := r.product_name, category := r.category, price := r.price,
          bm25_score := 0, vector_score := vector_score, metadata := r.metadata })]

/-- Source `merged_results` (lines 509-560): the BM25 pass over
`bm25_results_raw[:limit*2]` followed by the vector pass over
`vector_results[:limit*2]`; Python dicts preserve insertion order. -/
def mergedResults (product_only : Bool) (bm25_results_raw : List Document)
    (vector_results : List SearchResult) (limit : ℤ) : List (String × MergedData) :=
  let N := bm25_results_raw.length
  (pySlice (limit * 2) vector_results).foldl addVec
    ((pySlice (limit * 2) bm25_results_raw.enum).foldl (addBM25 product_only N) [])

/-- The final fusion loop body (lines 562-613): weighted fusion of the two
components, the category filter and match boost (without any
`calculate_category_weight` application), the attribute and type steps, and
the threshold test on the adjusted score.  Note: no clamp to 1.0. -/
def scoreOne (query : String) (target_categories : List String)
    (bm25_weight vector_weight score_threshold : ℚ) (kv : String × MergedData) :
    Option SearchResult :=
  let data := kv.2
  let fused := data.bm25_score * bm25_weight + data.vector_score * vector_weight
  if !target_categories.isEmpty && !is_product_matching_categories data.metadata target_categories
    then none
  else
    let match_score := compute_category_match_score data.metadata target_categories
    if !target_categories.isEmpty && match_score < 12/100 then none
    else
      let final0 := if target_categories.isEmpty then fused else applyMatchBoost match_score fused
      let final := scoreTail data.metadata query final0
      if score_threshold ≤ final then
        some { product_name := data.product_name, category := data.category, price := data.price,
               similarity_score := pyRound4 final, content := none,
               bm25_component := some (pyRound4 data.bm25_score),
               vector_component := some (pyRound4 data.vector_score),
               metadata := data.metadata }
      else none

/-- Source `hybrid_search_products` (lines 434-639).  `bm25_input` models the BM25
side of the `try` block: `Except.error ()` covers `ImportError` and every
other exception (both `except` branches fall back to the semantic ranker
with the same arguments); `Except.ok l` is the BM25 result list.  The
internal vector call passes `limit*3` and no boost keywords, exactly as in
the source. -/
def hybrid_search_products (vectorstore_updater : Option (Except Unit (List (Document × ℚ))))
    (query : String) (limit : ℤ) (score_threshold : ℚ) (product_only : Bool)
    (bm25_weight vector_weight : ℚ) (enable_category_weight : Bool)
    (bm25_input : Except Unit (List Document)) : List SearchResult :=
  match vectorstore_updater with
  | none => []
  | some _ =>
    match bm25_input with
    | Except.error _ =>
      semantic_search_products vectorstore_updater query limit score_threshold product_only none
        enable_category_weight
    | Except.ok bm25_results_raw =>
      let target_categories :=
        if enable_category_weight then infer_target_categories_from_query query else []
      let vector_results :=
        semantic_search_products vectorstore_updater query (limit * 3) score_threshold product_only
          none enable_category_weight
      let merged := mergedResults product_only bm25_results_raw vector_results limit
      pySlice limit
        (pySortDesc (merged.filterMap
          (scoreOne query target_categories bm25_weight vector_weight score_threshold)))

/-- Modelled from the spec: the CandidateScorer pipeline of spec §4.3
applied once to a base score — category filter, `categoryWeight` multiplier,
match-score boost, attribute boost, product-type adjustment, boost-keyword
step, final clamp to `[0,1]`.  Used only as the comparison point of the
refinement claim about the hybrid ranker. -/
def specCandidateScorer (query : String) (target_categories : List String)
    (boost_keywords : Option (List String)) (metadata : Metadata) (content : String)
    (base : ℚ) : Option ℚ :=
  let afterCat : Option ℚ :=
    if target_categories.isEmpty then some base
    else if !is_product_matching_categories metadata target_categories then none
    else
      let m := compute_category_match_score metadata target_categories
      if m < 12/100 then none
      else some (applyMatchBoost m
        (base * calculate_category_weight (metadata.category.getD "") target_categories boost_keywords))
  afterCat.map (fun s =>
    let s1 := scoreTail metadata query s
    let pname :=
      orElseNE metadata.product_name (orElseNE metadata.name (orElseNE metadata.product_id "Unknown"))
    let s2 :=
      if (boost_keywords.getD []).any (fun kw => pyIn (pyLower kw) (pyLower (content ++ pname)))
        then min (s1 * (115/100)) 1 else s1
    min (max s2 0) 1)

-- ========== REFERENCE DEFINITIONS USED BY THE THEOREMS ==========

/-- The item identity of a result: `result['metadata'].get('product_id', '')`. -/
def pidOf (r : SearchResult) : String := r.metadata.product_id.getD ""

/-- The adjustment the hybrid fusion loop actually applies to a fused base
score: match-score boost (when target categories exist), attribute boost,
type adjustment — and no `calculate_category_weight` multiplier. -/
def hybridAdjust (query : String) (target_categories : List String) (metadata : Metadata)
    (f : ℚ) : ℚ :=
  scoreTail metadata query
    (if target_categories.isEmpty then f
     else applyMatchBoost (compute_category_match_score metadata target_categories) f)

/-- Whether the first keyword of product type `t` mentioned in the query
also occurs in the product name. -/
def typeFirstHit (query_lower product_name : String) (t : String × List String) : Bool :=
  ((t.2.find? (fun kw => pyIn (pyLower kw) query_lower)).map
    (fun kw => pyIn (pyLower kw) product_name)).getD false

/-- One capped boost-keyword application. -/
def boostCap (s : ℚ) : ℚ := min (s * (115/100)) 1

/-- How many boost keywords occur in the content. -/
def countBoostMatches (boost_keywords : List String) (content_lower : String) : ℕ :=
  (boost_keywords.filter (fun kw => pyIn (pyLower kw) content_lower)).length

/-- The rank-based pseudo-score of the BM25 document at position `i` of a
result list of length `N`: `1 - i/(N+1)`. -/
def lexEntryScore (N : ℕ) (e : ℕ × Document) : ℚ := 1 - (e.1 : ℚ) / ((N : ℚ) + 1)

/-- Whether a BM25 document survives the source-filter and identity checks
of the merge loop. -/
def lexEligible (product_only : Bool) (d : Document) : Bool :=
  (!product_only || d.metadata.source == some "product_db") &&
    (d.metadata.product_id.getD "" != "")

/-- Maximum of a rational list, `none` on the empty list. -/
def listMaxQ : List ℚ → Option ℚ
  | [] => none
  | x :: xs =>
    match listMaxQ xs with
    | none => some x
    | some y => some (max x y)

/-- Maximum of two optional rationals. -/
def omaxQ : Option ℚ → Option ℚ → Option ℚ
  | none, o => o
  | some x, none => some x
  | some x, some y => some (max x y)

/-- The BM25 rank scores of the eligible entries of the merged BM25 slice
carrying one given `product_id`. -/
def lexScoresFor (product_only : Bool) (N : ℕ) (slice : List (ℕ × Document)) (pid : String) :
    List ℚ :=
  (slice.filter (fun e =>
    lexEligible product_only e.2 && (e.2.metadata.product_id.getD "" == pid))).map
      (lexEntryScore N)

/-- The vector-path scores of the entries of the merged vector slice carrying
one given non-empty `product_id`. -/
def vecScoresFor (slice : List SearchResult) (pid : String) : List ℚ :=
  (slice.filter (fun r => (pidOf r == pid) && (pidOf r != ""))).map
    (fun r => r.similarity_score)

/-- The maximum BM25 rank score observed for one `product_id` among the
eligible entries of the merged BM25 slice (`none` when the id is absent). -/
def bestLex (product_only : Bool) (N : ℕ) (slice : List (ℕ × Document)) (pid : String) :
    Option ℚ :=
  listMaxQ (lexScoresFor product_only N slice pid)

/-- The maximum vector-path score observed for one `product_id` among the
entries of the merged vector slice (`none` when the id is absent). -/
def bestVec (slice : List SearchResult) (pid : String) : Option ℚ :=
  listMaxQ (vecScoresFor slice pid)

/-- The two fusion components of a merged entry. -/
def projBV (o : Option MergedData) : Option (ℚ × ℚ) :=
  o.map (fun d => (d.bm25_score, d.vector_score))

/-- How one BM25 contribution combines with the components already present
for its key: a new key starts at `(score, 0)`, an existing key keeps the
maximum BM25 score. -/
def combB : Option (ℚ × ℚ) → Option ℚ → Option (ℚ × ℚ)
  | o, none => o
  | some bv, some m => some (max bv.1 m, bv.2)
  | none, some m => some (m, 0)

/-- How one vector contribution combines with the components already present
for its key: a new key starts at `(0, score)`, an existing key keeps the
maximum vector score. -/
def combV : Option (ℚ × ℚ) → Option ℚ → Option (ℚ × ℚ)
  | o, none => o
  | some bv, some m => some (bv.1, max bv.2 m)
  | none, some m => some (0, m)

-- ========== CONCRETE EXAMPLE INPUTS ==========

/-- An office chair-pad item: category outside the inferred target, chair
keywords only in the description, so the query "椅子" admits it but the
adjustments (0.7 category weight, 0.5 type demotion) push it down. -/
def exMeta1 : Metadata :=
  { product_id := some "p1", name := some "P100", description := some "舒適椅子",
    category := some "辦公用品", source := some "product_db" }

def exDoc1 : Document := ⟨"chairdoc", exMeta1⟩

def exUpdater1 : Option (Except Unit (List (Document × ℚ))) := some (Except.ok [(exDoc1, 1/4)])

/-- The single result of the chair example: 0.25 raw → ×0.7 weight → ×1.225
match boost → ×0.5 type demotion → 0.1072. -/
def exSemResult1 : SearchResult :=
  { product_name := "P100", category := "辦公用品", price := "",
    similarity_score := 67/625, content := some "chairdoc",
    bm25_component := none, vector_component := none, metadata := exMeta1 }

/-- An audio item whose category literally matches the target of the query
"音響". -/
def exMeta2 : Metadata :=
  { product_id := some "p1", product_name := some "N1", category := some "音頻設備",
    source := some "product_db" }

def exDoc2 : Document := ⟨"audio doc", exMeta2⟩

def exUpdater2 : Option (Except Unit (List (Document × ℚ))) := some (Except.ok [(exDoc2, 1/2)])

/-- An item matched by two boost keywords (and by nothing else). -/
def exMeta3 : Metadata :=
  { product_id := some "p3", product_name := some "B1", source := some "product_db" }

def exDoc3 : Document := ⟨"q1 q2 box", exMeta3⟩

def exUpdater3 : Option (Except Unit (List (Document × ℚ))) := some (Except.ok [(exDoc3, 2/5)])

/-- Two distinct items with no `product_id` at all. -/
def exMetaA : Metadata := { name := some "A", source := some "product_db" }

def exMetaB : Metadata := { name := some "B", source := some "product_db" }

def exDocA : Document := ⟨"docA", exMetaA⟩

def exDocB : Document := ⟨"docB", exMetaB⟩

def exUpdaterAB : Option (Except Unit (List (Document × ℚ))) :=
  some (Except.ok [(exDocA, 1/2), (exDocB, 2/5)])

/-- An earbud item whose name contains the second-mentioned product type of
the query "喇叭與耳機" but not the first. -/
def exMeta6 : Metadata := { name := some "無線耳機" }

/-- The two results of the empty-id example: neither carries a `product_id`,
both survive deduplication. -/
def exSemResultA : SearchResult :=
  { product_name := "A", category := "", price := "", similarity_score := 1/2,
    content := some "docA", bm25_component := none, vector_component := none,
    metadata := exMetaA }

def exSemResultB : SearchResult :=
  { product_name := "B", category := "", price := "", similarity_score := 2/5,
    content := some "docB", bm25_component := none, vector_component := none,
    metadata := exMetaB }

/-- The semantic result the audio example produces (raw 0.5 → ×2 category
weight → ×1.45 match boost → clamped to 1). -/
def exSemResult2 : SearchResult :=
  { product_name := "N1", category := "音頻設備", price := "", similarity_score := 1,
    content := some "audio doc", bm25_component := none, vector_component := none,
    metadata := exMeta2 }

/-- The fused entry of the audio example: top BM25 rank (score 1) and
vector score 1. -/
def exMergedData2 : MergedData :=
  { product_name := "N1", category := "音頻設備", price := "", bm25_score := 1,
    vector_score := 1, metadata := exMeta2 }

/-- The hybrid result of the audio example: fused base 1, match boost ×1.45,
no clamp. -/
def exHybResult2 : SearchResult :=
  { product_name := "N1", category := "音頻設備", price := "", similarity_score := 29/20,
    content := none, bm25_component := some 1, vector_component := some 1,
    metadata := exMeta2 }

-- ========== GENERAL HELPER LEMMAS ==========

theorem insertDescBy_perm (a : SearchResult) (l : List SearchResult) :
    (insertDescBy a l).Perm (a :: l) := by
  induction l with
  | nil => rfl
  | cons b bs ih =>
    unfold insertDescBy
    split
    · exact List.Perm.refl _
    · exact (List.Perm.cons b ih).trans (List.Perm.swap a b bs)

theorem pySortDesc_perm (l : List SearchResult) : (pySortDesc l).Perm l := by
  induction l with
  | nil => rfl
  | cons a as ih => exact (insertDescBy_perm a (pySortDesc as)).trans (List.Perm.cons a ih)

theorem mem_pySortDesc {r : SearchResult} {l : List SearchResult} :
    r ∈ pySortDesc l ↔ r ∈ l := (pySortDesc_perm l).mem_iff

theorem mem_pySlice {α : Type} {a : α} {k : ℤ} {l : List α} (h : a ∈ pySlice k l) : a ∈ l := by
  unfold pySlice at h
  split at h <;> exact List.take_subset _ _ h

theorem mem_dedupLoop {r : SearchResult} :
    ∀ (seen : List String) (l : List SearchResult), r ∈ dedupLoop seen l → r ∈ l := by
  intro seen l
  induction l generalizing seen with
  | nil => intro h; exact absurd h (List.not_mem_nil r)
  | cons x xs ih =>
    intro h
    simp only [dedupLoop] at h
    split at h
    · rcases List.mem_cons.mp h with h1 | h2
      · exact List.mem_cons.mpr (Or.inl h1)
      · exact List.mem_cons.mpr (Or.inr (ih _ h2))
    · split at h
      · rcases List.mem_cons.mp h with h1 | h2
        · exact List.mem_cons.mpr (Or.inl h1)
        · exact List.mem_cons.mpr (Or.inr (ih _ h2))
      · exact List.mem_cons.mpr (Or.inr (ih _ h))

theorem length_pySlice_le {α : Type} (k : ℤ) (l : List α) (h : 0 ≤ k) :
    ((pySlice k l).length : ℤ) ≤ k := by
  unfold pySlice
  rw [if_pos h, List.length_take]
  calc ((min k.toNat l.length : ℕ) : ℤ) ≤ (k.toNat : ℤ) := by exact_mod_cast Nat.min_le_left _ _
    _ = k := Int.toNat_of_nonneg h

-- ========== EVALUATION FACTS FOR THE CHAIR EXAMPLE ==========

theorem exMeta1_match : compute_category_match_score exMeta1 ["家具"] = 1/2 := by
  simp only [compute_category_match_score]
  norm_num [show catHitCounts (pyLower (sjoin " " (metaContentCandidates exMeta1))) ["家具"] =
      (2, 8) from by decide,
    show pyStrip ((exMeta1.category).getD "") != "" from by decide,
    show (["家具"] : List String).contains (pyStrip ((exMeta1.category).getD "")) = false from by
      decide]
  decide

theorem exMeta1_weight : calculate_category_weight "辦公用品" ["家具"] none = 7/10 := by
  simp only [calculate_category_weight]
  norm_num [show (["家具"] : List String).contains "辦公用品" = false from by decide,
    show (["家具"] : List String).any (fun cat => pyIn "音頻" cat || pyIn "喇叭" cat) = false from by
      decide,
    show (["家具"] : List String).contains "家庭娛樂" = false from by decide]
  simp

theorem exMeta1_attr : compute_attribute_match_score exMeta1 "椅子" = 1/2 := by
  simp only [compute_attribute_match_score]
  norm_num [show attrCounts (pyLower "椅子")
      (pyLower (pyLower (orElseNE exMeta1.name (orElseNE exMeta1.product_name "")) ++ " " ++
        pyLower ((exMeta1.description).getD "") ++ " " ++
        pyLower (sjoin " " ((exMeta1.features).getD [])))) = (0, 0) from by decide]

theorem exMeta1_type : compute_product_type_match_score exMeta1 "椅子" = 3/10 := by
  simp only [compute_product_type_match_score]
  norm_num [show scanTypes (pyLower "椅子")
      (pyLower (orElseNE exMeta1.name (orElseNE exMeta1.product_name ""))) PRODUCT_TYPES =
      none from by decide,
    show PRODUCT_TYPES.any (fun t => t.2.any (fun kw => pyIn (pyLower kw) (pyLower "椅子"))) =
      true from by decide]

theorem exStep1 : semanticStep ⟨"椅子", 10, 1/5, true, none, true, ["家具"]⟩ exDoc1 (1/4) =
    some exSemResult1 := by
  simp only [semanticStep, scoreTail, exSemResult1, show exDoc1.metadata = exMeta1 from rfl,
    show exDoc1.page_content = "chairdoc" from rfl]
  norm_num [exMeta1_match, exMeta1_attr, exMeta1_type,
    show ((exMeta1.source).getD "" != "product_db") = false from by decide,
    show is_product_matching_categories exMeta1 ["家具"] = true from by decide,
    show orElseNE exMeta1.product_name
      (orElseNE exMeta1.name (orElseNE exMeta1.product_id "Unknown")) = "P100" from by decide,
    show (exMeta1.category).getD "" = "辦公用品" from by decide,
    show (exMeta1.price).getD "" = "" from by decide,
    exMeta1_weight, applyMatchBoost, applyAttrBoost, applyTypeAdjust, applyBoostKeywords]
  norm_num [pyRound4, pyRoundInt]

theorem exSem1_eval : semantic_search_products exUpdater1 "椅子" 10 (1/5) true none true =
    [exSemResult1] := by
  simp only [exUpdater1, semantic_search_products,
    show infer_target_categories_from_query "椅子" = ["家具"] from by decide]
  simp only [semanticCollect, if_true]
  rw [exStep1]
  norm_num [pySortDesc, insertDescBy, dedupLoop, pySlice,
    show exSemResult1.metadata = exMeta1 from rfl]
  simp [show exMeta1.product_id.getD "" = "p1" from rfl]

/-- C2 counterexample: with threshold 0.2, the semantic entry point returns
a result whose final score 0.1072 is below the threshold — the threshold is
applied to the raw backend score (0.25) before the category/type
adjustments (×0.7, ×1.225, ×0.5) push the final score under it. -/
theorem c2_counterexample :
    (semantic_search_products exUpdater1 "椅子" 10 (1/5) true none true).map
      (fun r => r.similarity_score) = [67/625] ∧ (67/625 : ℚ) < 1/5 := by
  rw [exSem1_eval]
  norm_num [exSemResult1]

-- ========== C9 ==========

/-- C9 counterexample: a call with negative limit `-3` (whose backend call
with `k = -9` raises) is swallowed by the bare `except` and yields `[]`
rather than propagating any contract-violation signal to the caller. -/
theorem c9_counterexample :
    semantic_search_products (some (Except.error ())) "speaker" (-3) (1/5) true none true = [] := rfl

/-- C9 (amended): no input ever raises to the caller: every exception inside
either entry point is caught; the semantic ranker returns `[]` when the
backend call fails, and the hybrid ranker falls back to the semantic ranker
(and hence to `[]` when that also fails). -/
theorem c9_amended_silent_degradation (query : String) (limit : ℤ) (t : ℚ) (po : Bool)
    (bk : Option (List String)) (en : Bool) (bw vw : ℚ) :
    semantic_search_products (some (Except.error ())) query limit t po bk en = [] ∧
    semantic_search_products none query limit t po bk en = [] ∧
    hybrid_search_products (some (Except.error ())) query limit t po bw vw en
      (Except.error ()) = [] ∧
    hybrid_search_products none query limit t po bw vw en (Except.error ()) = [] :=
  ⟨rfl, rfl, rfl, rfl⟩

-- ========== C5 ==========

/-- C5 counterexample: the item category and the (sole) target category both
fall under the home-appliance umbrella (`"生活家電"` occurs in the item's
category and is a target), yet the weight is 0.7, not the claimed 2.0: the
umbrella check only assigns a local that is never read. -/
theorem c5_counterexample :
    pyIn "生活家電" "生活家電組" = true ∧ ("生活家電" ∈ ["生活家電"]) ∧
    "生活家電組" ∉ (["生活家電"] : List String) ∧
    calculate_category_weight "生活家電組" ["生活家電"] none = 7/10 := by
  refine ⟨by decide, by decide, by decide, ?_⟩
  simp only [calculate_category_weight]
  norm_num [show (["生活家電"] : List String).contains "生活家電組" = false from by decide,
    show (["生活家電"] : List String).any (fun cat => pyIn "音頻" cat || pyIn "喇叭" cat) =
      false from by decide,
    show (["生活家電"] : List String).contains "家庭娛樂" = false from by decide]
  simp

/-- C5 (amended): for a non-empty target list the category weight is 2.0
exactly when the item's category is literally a target or both sides relate
to audio (`音頻`/`喇叭` substrings), 1.5 for the projector/home-entertainment
affinity, and 0.7 in every other case; the home-appliance umbrella clause
only assigns an unused local and never changes the result. -/
theorem c5_weight_characterization (product_category : String) (target_categories : List String)
    (boost_keywords : Option (List String)) (h : target_categories ≠ []) :
    calculate_category_weight product_category target_categories boost_keywords =
      if target_categories.contains product_category then 2
      else if target_categories.any (fun cat => pyIn "音頻" cat || pyIn "喇叭" cat) &&
          (pyIn "音頻" product_category || pyIn "喇叭" product_category) then 2
      else if target_categories.contains "家庭娛樂" && pyIn "投影" product_category then 3/2
      else 7/10 := by
  cases target_categories with
  | nil => exact absurd rfl h
  | cons a l => rfl

theorem c5_witness : (["家庭娛樂"] : List String) ≠ [] ∧
    calculate_category_weight "投影機" ["家庭娛樂"] none =
      (if (["家庭娛樂"] : List String).contains "投影機" then 2
       else if (["家庭娛樂"] : List String).any (fun cat => pyIn "音頻" cat || pyIn "喇叭" cat) &&
           (pyIn "音頻" "投影機" || pyIn "喇叭" "投影機") then 2
       else if (["家庭娛樂"] : List String).contains "家庭娛樂" && pyIn "投影" "投影機" then 3/2
       else 7/10) :=
  ⟨by decide, c5_weight_characterization "投影機" ["家庭娛樂"] none (by decide)⟩

-- ========== C6 ==========

theorem scanTypes_eq_find (ql pn : String) :
    ∀ l, scanTypes ql pn l = if l.any (typeFirstHit ql pn) then some 1 else none := by
  intro l
  induction l with
  | nil => rfl
  | cons t rest ih =>
    cases hf : t.2.find? (fun kw => pyIn (pyLower kw) ql) with
    | none =>
      have h1 : typeFirstHit ql pn t = false := by unfold typeFirstHit; rw [hf]; rfl
      have h2 : scanTypes ql pn (t :: rest) = scanTypes ql pn rest := by
        simp only [scanTypes, hf]
      rw [h2, ih, List.any_cons, h1, Bool.false_or]
    | some kw =>
      by_cases hp : pyIn (pyLower kw) pn
      · have h1 : typeFirstHit ql pn t = true := by
          unfold typeFirstHit; rw [hf]; simpa using hp
        have h2 : scanTypes ql pn (t :: rest) = some 1 := by
          simp only [scanTypes, hf]; simp [hp]
        rw [h2, List.any_cons, h1]
        simp
      · have h1 : typeFirstHit ql pn t = false := by
          unfold typeFirstHit; rw [hf]; simpa using hp
        have h2 : scanTypes ql pn (t :: rest) = scanTypes ql pn rest := by
          simp only [scanTypes, hf]; simp [hp]
        rw [h2, ih, List.any_cons, h1, Bool.false_or]

/-- C6 (amended): no first-match-wins across types exists: the type score is
1.0 (a ×1.5 promotion) as soon as ANY product type, scanned in
table-declaration order, has its first query-mentioned keyword in the item
name — even when an earlier-mentioned type's keyword is absent from the
name; it is 0.3 (a ×0.5 demotion) when some type keyword is mentioned but no
type matches as above, and 0.6 (no adjustment) when no type is mentioned. -/
theorem c6_type_characterization (metadata : Metadata) (query : String) :
    compute_product_type_match_score metadata query =
      (if PRODUCT_TYPES.any (typeFirstHit (pyLower query)
          (pyLower (orElseNE metadata.name (orElseNE metadata.product_name "")))) then 1
       else if PRODUCT_TYPES.any (fun t => t.2.any (fun kw => pyIn (pyLower kw) (pyLower query)))
         then 3/10
       else 3/5) := by
  simp only [compute_product_type_match_score]
  rw [scanTypes_eq_find]
  by_cases h : PRODUCT_TYPES.any (typeFirstHit (pyLower query)
      (pyLower (orElseNE metadata.name (orElseNE metadata.product_name "")))) <;> simp [h]

/-- C6 counterexample: the query mentions the type 喇叭 (first in the table)
whose keyword is absent from the item name, so the claim predicts the 0.3
demotion path; the code continues scanning, matches the later type 耳機 in
the name, and returns 1.0 (the ×1.5 promotion). -/
theorem c6_counterexample : pyIn (pyLower "喇叭") (pyLower "喇叭與耳機") = true ∧
    pyIn (pyLower "喇叭") (pyLower (orElseNE exMeta6.name (orElseNE exMeta6.product_name ""))) =
      false ∧
    compute_product_type_match_score exMeta6 "喇叭與耳機" = 1 := by
  refine ⟨by decide, by decide, ?_⟩
  rw [c6_type_characterization]
  simp [show PRODUCT_TYPES.any (typeFirstHit (pyLower "喇叭與耳機")
    (pyLower (orElseNE exMeta6.name (orElseNE exMeta6.product_name "")))) = true from by decide]

-- ========== C7 ==========

/-- C7 (amended): the boost step multiplies by 1.15 once PER matching boost
keyword, each step capped at 1.0 (so the running product after the step
never exceeds 1.0, and with at least one matching keyword the final value of
this stage is at most 1.0); it is not a single multiplication. -/
theorem c7_boost_characterization (boost_keywords : List String) (content_lower : String)
    (f : ℚ) :
    applyBoostKeywords boost_keywords content_lower f =
      boostCap^[countBoostMatches boost_keywords content_lower] f ∧
    (countBoostMatches boost_keywords content_lower ≠ 0 →
      applyBoostKeywords boost_keywords content_lower f ≤ 1) := by
  have main : ∀ (kws : List String) (g : ℚ),
      applyBoostKeywords kws content_lower g = boostCap^[countBoostMatches kws content_lower] g := by
    intro kws
    induction kws with
    | nil => intro g; rfl
    | cons kw rest ih =>
      intro g
      by_cases hm : pyIn (pyLower kw) content_lower
      · have h1 : applyBoostKeywords (kw :: rest) content_lower g =
            applyBoostKeywords rest content_lower (boostCap g) := by
          simp [applyBoostKeywords, boostCap, hm]
        have h2 : countBoostMatches (kw :: rest) content_lower =
            countBoostMatches rest content_lower + 1 := by
          simp [countBoostMatches, hm]
        rw [h1, ih, h2, Function.iterate_succ_apply]
      · have h1 : applyBoostKeywords (kw :: rest) content_lower g =
            applyBoostKeywords rest content_lower g := by
          simp [applyBoostKeywords, hm]
        have h2 : countBoostMatches (kw :: rest) content_lower =
            countBoostMatches rest content_lower := by
          simp [countBoostMatches, hm]
        rw [h1, ih, h2]
  refine ⟨main boost_keywords f, ?_⟩
  intro h
  rw [main boost_keywords f]
  obtain ⟨m, hm⟩ := Nat.exists_eq_succ_of_ne_zero h
  rw [hm, Function.iterate_succ_apply']
  exact min_le_right _ _

theorem c7_witness : applyBoostKeywords ["q1"] "q1" (1/2) =
      boostCap^[countBoostMatches ["q1"] "q1"] (1/2) ∧
    countBoostMatches ["q1"] "q1" ≠ 0 ∧ applyBoostKeywords ["q1"] "q1" (1/2) ≤ 1 :=
  ⟨(c7_boost_characterization ["q1"] "q1" (1/2)).1, by decide,
    (c7_boost_characterization ["q1"] "q1" (1/2)).2 (by decide)⟩

theorem exMeta3_attr : compute_attribute_match_score exMeta3 "zzzz" = 1/2 := by
  simp only [compute_attribute_match_score]
  norm_num [show attrCounts (pyLower "zzzz")
      (pyLower (pyLower (orElseNE exMeta3.name (orElseNE exMeta3.product_name "")) ++ " " ++
        pyLower ((exMeta3.description).getD "") ++ " " ++
        pyLower (sjoin " " ((exMeta3.features).getD [])))) = (0, 0) from by decide]

theorem exMeta3_type : compute_product_type_match_score exMeta3 "zzzz" = 3/5 := by
  simp only [compute_product_type_match_score]
  norm_num [show scanTypes (pyLower "zzzz")
      (pyLower (orElseNE exMeta3.name (orElseNE exMeta3.product_name ""))) PRODUCT_TYPES =
      none from by decide,
    show PRODUCT_TYPES.any (fun t => t.2.any (fun kw => pyIn (pyLower kw) (pyLower "zzzz"))) =
      false from by decide]

theorem exStep3 : semanticStep ⟨"zzzz", 10, 1/5, true, some ["q1", "q2"], true, []⟩ exDoc3 (2/5) =
    some { product_name := "B1", category := "", price := "",
           similarity_score := 529/1000, content := some "q1 q2 box",
           bm25_component := none, vector_component := none, metadata := exMeta3 } := by
  simp only [semanticStep, scoreTail, show exDoc3.metadata = exMeta3 from rfl,
    show exDoc3.page_content = "q1 q2 box" from rfl]
  norm_num [exMeta3_attr, exMeta3_type,
    show ((exMeta3.source).getD "" != "product_db") = false from by decide,
    show orElseNE exMeta3.product_name
      (orElseNE exMeta3.name (orElseNE exMeta3.product_id "Unknown")) = "B1" from by decide,
    show (exMeta3.category).getD "" = "" from by decide,
    show (exMeta3.price).getD "" = "" from by decide,
    applyAttrBoost, applyTypeAdjust, applyBoostKeywords,
    show pyIn (pyLower "q1") (pyLower ("q1 q2 box" ++ "B1")) = true from by decide,
    show pyIn (pyLower "q2") (pyLower ("q1 q2 box" ++ "B1")) = true from by decide]
  norm_num [pyRound4, pyRoundInt]

theorem exSem3_eval : semantic_search_products exUpdater3 "zzzz" 10 (1/5) true
    (some ["q1", "q2"]) true =
    [{ product_name := "B1", category := "", price := "",
       similarity_score := 529/1000, content := some "q1 q2 box",
       bm25_component := none, vector_component := none, metadata := exMeta3 }] := by
  simp only [exUpdater3, semantic_search_products,
    show infer_target_categories_from_query "zzzz" = [] from by decide]
  simp only [semanticCollect, if_true]
  rw [exStep3]
  norm_num [pySortDesc, insertDescBy, dedupLoop, pySlice]
  simp [show exMeta3.product_id.getD "" = "p3" from rfl]

/-- C7 counterexample: with two matching boost keywords the returned score is
0.4·1.15·1.15 = 0.529 — the multiplication is applied once per matching
keyword, not "exactly once", which would give round(min(0.4·1.15, 1), 4) =
0.46. -/
theorem c7_counterexample :
    (semantic_search_products exUpdater3 "zzzz" 10 (1/5) true (some ["q1", "q2"]) true).map
      (fun r => r.similarity_score) = [529/1000] ∧
    pyRound4 (min ((2/5 : ℚ) * (115/100)) 1) = 23/50 ∧ (529/1000 : ℚ) ≠ 23/50 := by
  rw [exSem3_eval]
  refine ⟨rfl, ?_, by norm_num⟩
  norm_num [pyRound4, pyRoundInt]

-- ========== EVALUATION FACTS FOR THE AUDIO EXAMPLE ==========

theorem exMeta2_match : compute_category_match_score exMeta2 ["音頻設備"] = 1 := by
  have hcond : (pyStrip ((exMeta2.category).getD "") != "" &&
      (["音頻設備"] : List String).contains (pyStrip ((exMeta2.category).getD ""))) = true := by
    decide
  simp only [compute_category_match_score, hcond]
  norm_num

theorem exMeta2_weight : calculate_category_weight "音頻設備" ["音頻設備"] none = 2 := by
  simp only [calculate_category_weight]
  norm_num [show (["音頻設備"] : List String).contains "音頻設備" = true from by decide]

theorem exMeta2_attr : compute_attribute_match_score exMeta2 "音響" = 1/2 := by
  simp only [compute_attribute_match_score]
  norm_num [show attrCounts (pyLower "音響")
      (pyLower (pyLower (orElseNE exMeta2.name (orElseNE exMeta2.product_name "")) ++ " " ++
        pyLower ((exMeta2.description).getD "") ++ " " ++
        pyLower (sjoin " " ((exMeta2.features).getD [])))) = (0, 0) from by decide]

theorem exMeta2_type : compute_product_type_match_score exMeta2 "音響" = 3/5 := by
  simp only [compute_product_type_match_score]
  norm_num [show scanTypes (pyLower "音響")
      (pyLower (orElseNE exMeta2.name (orElseNE exMeta2.product_name ""))) PRODUCT_TYPES =
      none from by decide,
    show PRODUCT_TYPES.any (fun t => t.2.any (fun kw => pyIn (pyLower kw) (pyLower "音響"))) =
      false from by decide]

theorem exStep2 : semanticStep ⟨"音響", 10 * 3, 1/5, true, none, true, ["音頻設備"]⟩ exDoc2 (1/2) =
    some exSemResult2 := by
  simp only [semanticStep, scoreTail, exSemResult2, show exDoc2.metadata = exMeta2 from rfl,
    show exDoc2.page_content = "audio doc" from rfl]
  norm_num [exMeta2_match, exMeta2_attr, exMeta2_type,
    show ((exMeta2.source).getD "" != "product_db") = false from by decide,
    show is_product_matching_categories exMeta2 ["音頻設備"] = true from by decide,
    show orElseNE exMeta2.product_name
      (orElseNE exMeta2.name (orElseNE exMeta2.product_id "Unknown")) = "N1" from by decide,
    show (exMeta2.category).getD "" = "音頻設備" from by decide,
    show (exMeta2.price).getD "" = "" from by decide,
    exMeta2_weight, applyMatchBoost, applyAttrBoost, applyTypeAdjust, applyBoostKeywords]
  norm_num [pyRound4, pyRoundInt]

theorem exSem2_eval : semantic_search_products (some (Except.ok [(exDoc2, 1/2)])) "音響" (10 * 3)
    (1/5) true none true = [exSemResult2] := by
  simp only [semantic_search_products,
    show infer_target_categories_from_query "音響" = ["音頻設備"] from by decide]
  simp only [semanticCollect, if_true]
  rw [exStep2]
  norm_num [pySortDesc, insertDescBy, dedupLoop, pySlice,
    show exSemResult2.metadata = exMeta2 from rfl]
  simp [show exMeta2.product_id.getD "" = "p1" from rfl, exSemResult2]

theorem exMerged2_eval : mergedResults true [exDoc2] [exSemResult2] 10 =
    [("p1", exMergedData2)] := by
  simp only [mergedResults]
  rw [show pySlice (10 * 2) (List.enum [exDoc2]) = [(0, exDoc2)] from by rfl,
    show pySlice (10 * 2) [exSemResult2] = [exSemResult2] from by rfl]
  simp only [List.foldl_cons, List.foldl_nil, addBM25, addVec,
    show exDoc2.metadata = exMeta2 from rfl,
    show exSemResult2.metadata = exMeta2 from rfl,
    show (exMeta2.source == some "product_db") = true from by decide,
    show (exMeta2.product_id.getD "" == "") = false from by decide,
    show exMeta2.product_name.getD "" = "N1" from by decide,
    show exMeta2.category.getD "" = "音頻設備" from by decide,
    show exMeta2.price.getD "" = "" from by decide]
  simp [show exMeta2.source = some "product_db" from rfl,
    show exMeta2.product_id.getD "" = "p1" from rfl, exMergedData2,
    show exSemResult2.similarity_score = 1 from rfl]

theorem exScoreOne2 : scoreOne "音響" ["音頻設備"] (2/5) (3/5) (1/5) ("p1", exMergedData2) =
    some exHybResult2 := by
  simp only [scoreOne, scoreTail, show exMergedData2.metadata = exMeta2 from rfl]
  norm_num [exMeta2_match, exMeta2_attr, exMeta2_type,
    show is_product_matching_categories exMeta2 ["音頻設備"] = true from by decide,
    applyMatchBoost, applyAttrBoost, applyTypeAdjust,
    show exMergedData2.bm25_score = 1 from rfl,
    show exMergedData2.vector_score = 1 from rfl,
    show exMergedData2.product_name = "N1" from rfl,
    show exMergedData2.category = "音頻設備" from rfl,
    show exMergedData2.price = "" from rfl]
  norm_num [pyRound4, pyRoundInt, exHybResult2]

theorem exHyb2_eval : hybrid_search_products (some (Except.ok [(exDoc2, 1/2)])) "音響" 10 (1/5)
    true (2/5) (3/5) true (Except.ok [exDoc2]) = [exHybResult2] := by
  simp only [hybrid_search_products,
    show infer_target_categories_from_query "音響" = ["音頻設備"] from by decide, if_true]
  rw [exSem2_eval, exMerged2_eval]
  simp only [List.filterMap_cons, List.filterMap_nil, exScoreOne2]
  norm_num [pySortDesc, insertDescBy, pySlice]

-- ========== C1 / C3 COUNTEREXAMPLES ==========

/-- C1 counterexample: the hybrid entry point applies no final clamp: with a
top BM25 rank (score 1.0) and a clamped vector score 1.0, the fused base 1.0
is boosted by the match-score step to 1.45, and 1.45 > 1 is returned. -/
theorem c1_counterexample :
    (hybrid_search_products (some (Except.ok [(exDoc2, 1/2)])) "音響" 10 (1/5) true (2/5) (3/5)
      true (Except.ok [exDoc2])).map (fun r => r.similarity_score) = [29/20] ∧
    (1 : ℚ) < 29/20 := by
  rw [exHyb2_eval]
  refine ⟨?_, by norm_num⟩
  simp [exHybResult2]

theorem exSpec2_eval :
    specCandidateScorer "音響" ["音頻設備"] none exMeta2 "audio doc" 1 = some 1 := by
  simp only [specCandidateScorer, scoreTail]
  norm_num [exMeta2_match, exMeta2_attr, exMeta2_type, exMeta2_weight,
    show is_product_matching_categories exMeta2 ["音頻設備"] = true from by decide,
    show (exMeta2.category).getD "" = "音頻設備" from by decide,
    applyMatchBoost, applyAttrBoost, applyTypeAdjust]

/-- C3 counterexample: on the audio example the hybrid ranker returns 1.45
for the candidate with fused base `1*0.4 + 1*0.6 = 1`, while the full
CandidateScorer pipeline applied once to that fused base (category weight
×2, match boost ×1.45, clamp) yields 1.0: the hybrid loop skips the
category-weight multiplier and the vector component has already been through
the full single-path pipeline. -/
theorem c3_counterexample :
    (hybrid_search_products (some (Except.ok [(exDoc2, 1/2)])) "音響" 10 (1/5) true (2/5) (3/5)
      true (Except.ok [exDoc2])).map (fun r => r.similarity_score) = [29/20] ∧
    specCandidateScorer "音響" ["音頻設備"] none exMeta2 "audio doc"
      ((1 : ℚ) * (2/5) + 1 * (3/5)) = some 1 ∧
    pyRound4 1 = 1 ∧ (29/20 : ℚ) ≠ 1 := by
  refine ⟨?_, ?_, ?_, by norm_num⟩
  · rw [exHyb2_eval]; simp [exHybResult2]
  · have hb : ((1 : ℚ) * (2/5) + 1 * (3/5)) = 1 := by norm_num
    rw [hb]; exact exSpec2_eval
  · norm_num [pyRound4, pyRoundInt]

-- ========== NONNEGATIVITY CHAIN ==========

theorem compute_category_match_score_nonneg (md : Metadata) (ts : List String) :
    0 ≤ compute_category_match_score md ts := by
  simp only [compute_category_match_score]
  split
  · norm_num
  · split
    · norm_num
    · split
      · norm_num
      · refine le_min (by norm_num) ?_
        positivity

theorem compute_attribute_match_score_nonneg (md : Metadata) (q : String) :
    0 ≤ compute_attribute_match_score md q := by
  simp only [compute_attribute_match_score]
  split
  · norm_num
  · positivity

theorem calculate_category_weight_pos (pc : String) (ts : List String)
    (bk : Option (List String)) : 0 < calculate_category_weight pc ts bk := by
  simp only [calculate_category_weight]
  split
  · norm_num
  · split
    · norm_num
    · split
      · norm_num
      · split <;> norm_num

theorem applyMatchBoost_nonneg (m f : ℚ) (hm : 0 ≤ m) (hf : 0 ≤ f) :
    0 ≤ applyMatchBoost m f := by
  simp only [applyMatchBoost]
  have h1 : (0:ℚ) ≤ 1 + 45/100 * m := by nlinarith
  exact mul_nonneg hf h1

theorem applyAttrBoost_nonneg (a f : ℚ) (ha : 0 ≤ a) (hf : 0 ≤ f) :
    0 ≤ applyAttrBoost a f := by
  simp only [applyAttrBoost]
  split
  · have h1 : (0:ℚ) ≤ 1 + 3/10 * a := by nlinarith
    exact mul_nonneg hf h1
  · exact hf

theorem applyTypeAdjust_nonneg (ts f : ℚ) (hf : 0 ≤ f) : 0 ≤ applyTypeAdjust ts f := by
  simp only [applyTypeAdjust]
  split
  · exact mul_nonneg hf (by norm_num)
  · split
    · exact mul_nonneg hf (by norm_num)
    · exact hf

theorem scoreTail_nonneg (md : Metadata) (q : String) (f : ℚ) (hf : 0 ≤ f) :
    0 ≤ scoreTail md q f :=
  applyTypeAdjust_nonneg _ _
    (applyAttrBoost_nonneg _ _ (compute_attribute_match_score_nonneg md q) hf)

theorem applyBoostKeywords_nonneg (kws : List String) (c : String) (f : ℚ) (hf : 0 ≤ f) :
    0 ≤ applyBoostKeywords kws c f := by
  induction kws generalizing f with
  | nil => exact hf
  | cons kw rest ih =>
    simp only [applyBoostKeywords, List.foldl_cons]
    have hstep : 0 ≤ (if pyIn (pyLower kw) c = true then min (f * (115/100)) 1 else f) := by
      split
      · exact le_min (mul_nonneg hf (by norm_num)) (by norm_num)
      · exact hf
    exact ih _ hstep

theorem pyRound4_bounds (q : ℚ) (h0 : 0 ≤ q) (h1 : q ≤ 1) :
    0 ≤ pyRound4 q ∧ pyRound4 q ≤ 1 := by
  have hx0 : (0:ℚ) ≤ q * 10000 := by nlinarith
  have hx1 : q * 10000 ≤ 10000 := by nlinarith
  have hf0 : (0:ℤ) ≤ ⌊q * 10000⌋ := Int.floor_nonneg.mpr hx0
  have hfq : (⌊q * 10000⌋ : ℚ) ≤ q * 10000 := Int.floor_le _
  have hf1 : ⌊q * 10000⌋ ≤ 10000 := by exact_mod_cast hfq.trans hx1
  have key : 0 ≤ pyRoundInt (q * 10000) ∧ pyRoundInt (q * 10000) ≤ 10000 := by
    simp only [pyRoundInt]
    by_cases hc1 : q * 10000 - ⌊q * 10000⌋ < 1/2
    · rw [if_pos hc1]; exact ⟨hf0, hf1⟩
    · push_neg at hc1
      have hlt : (⌊q * 10000⌋ : ℚ) < q * 10000 := by nlinarith
      have hstrict : ⌊q * 10000⌋ < 10000 := by
        exact_mod_cast hlt.trans_le hx1
      rw [if_neg (by push_neg; exact hc1)]
      by_cases hc2 : (1:ℚ)/2 < q * 10000 - ⌊q * 10000⌋
      · rw [if_pos hc2]; omega
      · rw [if_neg hc2]
        by_cases hc3 : ⌊q * 10000⌋ % 2 = 0
        · rw [if_pos hc3]; exact ⟨hf0, hf1⟩
        · rw [if_neg hc3]; omega
  simp only [pyRound4]
  constructor
  · apply div_nonneg _ (by norm_num)
    exact_mod_cast key.1
  · rw [div_le_one (by norm_num)]
    exact_mod_cast key.2

theorem pyRound4_min_one_bounds (f : ℚ) (hf : 0 ≤ f) :
    0 ≤ pyRound4 (min f 1) ∧ pyRound4 (min f 1) ≤ 1 :=
  pyRound4_bounds _ (le_min hf zero_le_one) (min_le_right _ _)

-- ========== C1 (SEMANTIC BOUNDS) ==========

theorem semanticStep_bounds (p : SemParams) (doc : Document) (score : ℚ) (r : SearchResult)
    (hs : 0 ≤ score) (h : semanticStep p doc score = some r) :
    0 ≤ r.similarity_score ∧ r.similarity_score ≤ 1 := by
  simp only [semanticStep] at h
  split at h
  · exact absurd h (by simp)
  · split at h
    · exact absurd h (by simp)
    · split at h
      · exact absurd h (by simp)
      · split at h
        · exact absurd h (by simp)
        · rw [Option.some_inj] at h
          subst h
          apply pyRound4_min_one_bounds
          apply applyBoostKeywords_nonneg
          apply scoreTail_nonneg
          split
          · apply applyMatchBoost_nonneg _ _ (compute_category_match_score_nonneg _ _)
            exact mul_nonneg hs (calculate_category_weight_pos _ _ _).le
          · exact hs

theorem semanticCollect_bounds (p : SemParams) :
    ∀ (results : List (Document × ℚ)) (out : List SearchResult),
      (∀ e ∈ results, 0 ≤ e.2) →
      (∀ r ∈ out, 0 ≤ r.similarity_score ∧ r.similarity_score ≤ 1) →
      ∀ r ∈ semanticCollect p results out, 0 ≤ r.similarity_score ∧ r.similarity_score ≤ 1 := by
  intro results
  induction results with
  | nil => intro out _ h2 r hr; exact h2 r hr
  | cons e rest ih =>
    obtain ⟨doc, score⟩ := e
    intro out h1 h2 r hr
    simp only [semanticCollect] at hr
    cases hstep : semanticStep p doc score with
    | none =>
      rw [hstep] at hr
      exact ih out (fun x hx => h1 x (List.mem_cons_of_mem _ hx)) h2 r hr
    | some entry =>
      rw [hstep] at hr
      have hentry : ∀ x ∈ out ++ [entry], 0 ≤ x.similarity_score ∧ x.similarity_score ≤ 1 := by
        intro x hx
        rcases List.mem_append.mp hx with hx1 | hx2
        · exact h2 x hx1
        · rw [List.mem_singleton.mp hx2]
          exact semanticStep_bounds p doc score entry
            (h1 (doc, score) (List.mem_cons_self _ _)) hstep
      simp only at hr
      split at hr
      · exact hentry r hr
      · exact ih _ (fun x hx => h1 x (List.mem_cons_of_mem _ hx)) hentry r hr

/-- C1 (amended): the semantic entry point clamps above at 1.0 before
rounding, so given nonnegative backend relevance scores every returned
`similarity_score` lies in [0,1]; the hybrid entry point applies no final
clamp and can return scores above 1 (see the counterexample). -/
theorem c1_semantic_bounds (results : List (Document × ℚ)) (query : String) (limit : ℤ)
    (t : ℚ) (po : Bool) (bk : Option (List String)) (en : Bool)
    (h : ∀ e ∈ results, 0 ≤ e.2) :
    ∀ r ∈ semantic_search_products (some (Except.ok results)) query limit t po bk en,
      0 ≤ r.similarity_score ∧ r.similarity_score ≤ 1 := by
  intro r hr
  simp only [semantic_search_products] at hr
  have h3 := mem_pySortDesc.mp (mem_dedupLoop _ _ (mem_pySlice hr))
  exact semanticCollect_bounds _ _ _ h (fun x hx => absurd hx (List.not_mem_nil x)) r h3

theorem c1_witness : (∀ e ∈ [(exDoc1, (1 : ℚ)/4)], 0 ≤ e.2) ∧
    0 ≤ (67/625 : ℚ) ∧ (67/625 : ℚ) ≤ 1 := by
  have hh : ∀ e ∈ [(exDoc1, (1 : ℚ)/4)], 0 ≤ e.2 := by
    intro e he
    rw [List.mem_singleton.mp he]
    norm_num
  refine ⟨hh, ?_⟩
  have h := c1_semantic_bounds [(exDoc1, 1/4)] "椅子" 10 (1/5) true none true hh
  have hr : exSemResult1 ∈
      semantic_search_products (some (Except.ok [(exDoc1, 1/4)])) "椅子" 10 (1/5) true none true := by
    rw [show (some (Except.ok [(exDoc1, (1:ℚ)/4)])) = exUpdater1 from rfl, exSem1_eval]
    exact List.mem_singleton.mpr rfl
  simpa [exSemResult1] using h _ hr

-- ========== C2 / C3 (AMENDED, HYBRID) ==========

theorem scoreOne_inv {query : String} {targets : List String} {bw vw t : ℚ}
    {kv : String × MergedData} {r : SearchResult}
    (h : scoreOne query targets bw vw t kv = some r) :
    t ≤ hybridAdjust query targets kv.2.metadata
        (kv.2.bm25_score * bw + kv.2.vector_score * vw) ∧
    r.similarity_score = pyRound4 (hybridAdjust query targets kv.2.metadata
        (kv.2.bm25_score * bw + kv.2.vector_score * vw)) ∧
    r.metadata = kv.2.metadata := by
  simp only [scoreOne] at h
  split at h
  · exact absurd h (by simp)
  split at h
  · exact absurd h (by simp)
  split at h
  next hEmp =>
    split at h
    next hth =>
      rw [Option.some_inj] at h
      subst h
      refine ⟨?_, ?_, rfl⟩
      · simpa only [hybridAdjust, if_pos hEmp] using hth
      · simp only [hybridAdjust, if_pos hEmp]
    next hth => exact absurd h (by simp)
  next hEmp =>
    split at h
    next hth =>
      rw [Option.some_inj] at h
      subst h
      refine ⟨?_, ?_, rfl⟩
      · simpa only [hybridAdjust, if_neg hEmp] using hth
      · simp only [hybridAdjust, if_neg hEmp]
    next hth => exact absurd h (by simp)

/-- C2 (amended): in the hybrid entry point the threshold test happens after
all adjustments: every returned result's `similarity_score` is the 4-digit
rounding of an adjusted score that is at least the caller's threshold.  (In
the semantic entry point the claim fails, see the counterexample.) -/
theorem c2_hybrid_threshold (updater : Option (Except Unit (List (Document × ℚ))))
    (query : String) (limit : ℤ) (t : ℚ) (po : Bool) (bw vw : ℚ) (en : Bool)
    (l : List Document) :
    ∀ r ∈ hybrid_search_products updater query limit t po bw vw en (Except.ok l),
      ∃ f, t ≤ f ∧ r.similarity_score = pyRound4 f := by
  intro r hr
  cases updater with
  | none =>
    simp only [hybrid_search_products] at hr
    exact absurd hr (List.not_mem_nil r)
  | some u =>
    simp only [hybrid_search_products] at hr
    have h2 := mem_pySortDesc.mp (mem_pySlice hr)
    obtain ⟨kv, _, hsome⟩ := List.mem_filterMap.mp h2
    obtain ⟨hth, heq, _⟩ := scoreOne_inv hsome
    exact ⟨_, hth, heq⟩

theorem c2_witness : ∃ f, (1/5 : ℚ) ≤ f ∧ (29/20 : ℚ) = pyRound4 f := by
  have h := c2_hybrid_threshold (some (Except.ok [(exDoc2, 1/2)])) "音響" 10 (1/5) true
    (2/5) (3/5) true [exDoc2] exHybResult2
    (by rw [exHyb2_eval]; exact List.mem_singleton.mpr rfl)
  simpa [show exHybResult2.similarity_score = 29/20 from rfl] using h

/-- C3 (amended): every hybrid result's score is the rounding of the fused
base `bm25_score*bm25_weight + vector_score*vector_weight` of its merged
entry passed once through match boost, attribute boost and type adjustment —
with no `calculate_category_weight` multiplier and no clamp; the
category weight and the other boosts additionally act on the vector
component inside the internal single-path call that produced it. -/
theorem c3_hybrid_no_reweight (u : Except Unit (List (Document × ℚ))) (query : String)
    (limit : ℤ) (t : ℚ) (po : Bool) (bw vw : ℚ) (en : Bool) (l : List Document) :
    ∀ r ∈ hybrid_search_products (some u) query limit t po bw vw en (Except.ok l),
      ∃ kv ∈ mergedResults po l
          (semantic_search_products (some u) query (limit * 3) t po none en) limit,
        r.similarity_score =
          pyRound4 (hybridAdjust query
            (if en then infer_target_categories_from_query query else [])
            kv.2.metadata (kv.2.bm25_score * bw + kv.2.vector_score * vw)) := by
  intro r hr
  simp only [hybrid_search_products] at hr
  have h2 := mem_pySortDesc.mp (mem_pySlice hr)
  obtain ⟨kv, hkv, hsome⟩ := List.mem_filterMap.mp h2
  exact ⟨kv, hkv, (scoreOne_inv hsome).2.1⟩

theorem c3_witness :
    ∃ kv ∈ mergedResults true [exDoc2]
        (semantic_search_products (some (Except.ok [(exDoc2, (1:ℚ)/2)])) "音響" (10 * 3) (1/5)
          true none true) 10,
      (29/20 : ℚ) =
        pyRound4 (hybridAdjust "音響"
          (if true then infer_target_categories_from_query "音響" else [])
          kv.2.metadata (kv.2.bm25_score * (2/5) + kv.2.vector_score * (3/5))) := by
  have h := c3_hybrid_no_reweight (Except.ok [(exDoc2, 1/2)]) "音響" 10 (1/5) true (2/5) (3/5)
    true [exDoc2] exHybResult2
    (by rw [exHyb2_eval]; exact List.mem_singleton.mpr rfl)
  simpa [show exHybResult2.similarity_score = 29/20 from rfl] using h

-- ========== C10 ==========

theorem semantic_length_le (updater : Option (Except Unit (List (Document × ℚ))))
    (query : String) (limit : ℤ) (t : ℚ) (po : Bool) (bk : Option (List String)) (en : Bool)
    (h : 0 ≤ limit) :
    ((semantic_search_products updater query limit t po bk en).length : ℤ) ≤ limit := by
  cases updater with
  | none => simpa using h
  | some u =>
    cases u with
    | error e => simpa using h
    | ok results =>
      simp only [semantic_search_products]
      exact length_pySlice_le _ _ h

/-- C10: both entry points return at most `limit` results for `limit ≥ 0`,
on every branch: the normal paths truncate with `[:limit]`, the hybrid
fallback calls the semantic ranker with the same limit, and the failure
paths return `[]`. -/
theorem c10_length_le (updater : Option (Except Unit (List (Document × ℚ))))
    (query : String) (limit : ℤ) (t : ℚ) (po : Bool) (bk : Option (List String))
    (bw vw : ℚ) (en : Bool) (bm25_input : Except Unit (List Document)) (h : 0 ≤ limit) :
    ((semantic_search_products updater query limit t po bk en).length : ℤ) ≤ limit ∧
    ((hybrid_search_products updater query limit t po bw vw en bm25_input).length : ℤ) ≤ limit := by
  refine ⟨semantic_length_le updater query limit t po bk en h, ?_⟩
  cases updater with
  | none => simpa using h
  | some u =>
    cases bm25_input with
    | error e =>
      simp only [hybrid_search_products]
      exact semantic_length_le _ query limit t po none en h
    | ok l =>
      simp only [hybrid_search_products]
      exact length_pySlice_le _ _ h

theorem c10_witness : (0 : ℤ) ≤ 10 ∧
    ((semantic_search_products exUpdater1 "椅子" 10 (1/5) true none true).length : ℤ) ≤ 10 ∧
    ((hybrid_search_products exUpdater1 "椅子" 10 (1/5) true (2/5) (3/5) true
      (Except.error ())).length : ℤ) ≤ 10 :=
  ⟨by norm_num,
    (c10_length_le exUpdater1 "椅子" 10 (1/5) true none (2/5) (3/5) true (Except.error ())
      (by norm_num)).1,
    (c10_length_le exUpdater1 "椅子" 10 (1/5) true none (2/5) (3/5) true (Except.error ())
      (by norm_num)).2⟩

-- ========== C8 ==========

theorem dedupLoop_pairwise :
    ∀ (l : List SearchResult) (seen : List String),
      List.Pairwise (fun a b => a.metadata.product_id.getD "" = b.metadata.product_id.getD "" →
        a.metadata.product_id.getD "" = "") (dedupLoop seen l) ∧
      (∀ r ∈ dedupLoop seen l, ¬ r.metadata.product_id.getD "" = "" →
        ¬ seen.contains (r.metadata.product_id.getD "") = true) := by
  intro l
  induction l with
  | nil =>
    intro seen
    exact ⟨List.Pairwise.nil, fun r hr => absurd hr (List.not_mem_nil r)⟩
  | cons x xs ih =>
    intro seen
    simp only [dedupLoop]
    split
    next hcond =>
      have hx1 : ¬ x.metadata.product_id.getD "" = "" := by
        have := (Bool.and_eq_true _ _).mp hcond
        simpa using this.1
      have hx2 : seen.contains (x.metadata.product_id.getD "") = false := by
        have := (Bool.and_eq_true _ _).mp hcond
        simpa using this.2
      obtain ⟨ihp, ihs⟩ := ih (x.metadata.product_id.getD "" :: seen)
      constructor
      · refine List.Pairwise.cons ?_ ihp
        intro b hb hpeq
        by_cases hb0 : b.metadata.product_id.getD "" = ""
        · rw [hpeq, hb0]
        · have h2 := ihs b hb hb0
          exfalso
          apply h2
          rw [List.contains_cons]
          have hpe : (b.metadata.product_id.getD "" == x.metadata.product_id.getD "") = true := by
            simp [hpeq]
          rw [hpe]
          simp
      · intro r hr hrne
        rcases List.mem_cons.mp hr with hr1 | hr2
        · rw [hr1]
          simpa using hx2
        · have h2 := ihs r hr2 hrne
          intro hcontra
          apply h2
          rw [List.contains_cons, hcontra]
          simp
    next hcond =>
      split
      next hempty =>
        have hx0 : x.metadata.product_id.getD "" = "" := by simpa using hempty
        obtain ⟨ihp, ihs⟩ := ih seen
        constructor
        · refine List.Pairwise.cons ?_ ihp
          intro b _ _
          exact hx0
        · intro r hr hrne
          rcases List.mem_cons.mp hr with hr1 | hr2
          · exact absurd (hr1 ▸ hx0) hrne
          · exact ihs r hr2 hrne
      next hempty =>
        exact ih seen

theorem pySlice_sublist {α : Type} (k : ℤ) (l : List α) : (pySlice k l).Sublist l := by
  unfold pySlice
  split <;> exact List.take_sublist _ _

theorem exMetaA_attr : compute_attribute_match_score exMetaA "qq" = 1/2 := by
  simp only [compute_attribute_match_score]
  norm_num [show attrCounts (pyLower "qq")
      (pyLower (pyLower (orElseNE exMetaA.name (orElseNE exMetaA.product_name "")) ++ " " ++
        pyLower ((exMetaA.description).getD "") ++ " " ++
        pyLower (sjoin " " ((exMetaA.features).getD [])))) = (0, 0) from by decide]

theorem exMetaB_attr : compute_attribute_match_score exMetaB "qq" = 1/2 := by
  simp only [compute_attribute_match_score]
  norm_num [show attrCounts (pyLower "qq")
      (pyLower (pyLower (orElseNE exMetaB.name (orElseNE exMetaB.product_name "")) ++ " " ++
        pyLower ((exMetaB.description).getD "") ++ " " ++
        pyLower (sjoin " " ((exMetaB.features).getD [])))) = (0, 0) from by decide]

theorem exMetaA_type : compute_product_type_match_score exMetaA "qq" = 3/5 := by
  simp only [compute_product_type_match_score]
  norm_num [show scanTypes (pyLower "qq")
      (pyLower (orElseNE exMetaA.name (orElseNE exMetaA.product_name ""))) PRODUCT_TYPES =
      none from by decide,
    show PRODUCT_TYPES.any (fun t => t.2.any (fun kw => pyIn (pyLower kw) (pyLower "qq"))) =
      false from by decide]

theorem exMetaB_type : compute_product_type_match_score exMetaB "qq" = 3/5 := by
  simp only [compute_product_type_match_score]
  norm_num [show scanTypes (pyLower "qq")
      (pyLower (orElseNE exMetaB.name (orElseNE exMetaB.product_name ""))) PRODUCT_TYPES =
      none from by decide,
    show PRODUCT_TYPES.any (fun t => t.2.any (fun kw => pyIn (pyLower kw) (pyLower "qq"))) =
      false from by decide]

theorem exStepA : semanticStep ⟨"qq", 10, 1/5, true, none, true, []⟩ exDocA (1/2) =
    some exSemResultA := by
  simp only [semanticStep, scoreTail, exSemResultA, show exDocA.metadata = exMetaA from rfl,
    show exDocA.page_content = "docA" from rfl]
  norm_num [exMetaA_attr, exMetaA_type,
    show ((exMetaA.source).getD "" != "product_db") = false from by decide,
    show orElseNE exMetaA.product_name
      (orElseNE exMetaA.name (orElseNE exMetaA.product_id "Unknown")) = "A" from by decide,
    show (exMetaA.category).getD "" = "" from by decide,
    show (exMetaA.price).getD "" = "" from by decide,
    applyAttrBoost, applyTypeAdjust, applyBoostKeywords]
  norm_num [pyRound4, pyRoundInt]

theorem exStepB : semanticStep ⟨"qq", 10, 1/5, true, none, true, []⟩ exDocB (2/5) =
    some exSemResultB := by
  simp only [semanticStep, scoreTail, exSemResultB, show exDocB.metadata = exMetaB from rfl,
    show exDocB.page_content = "docB" from rfl]
  norm_num [exMetaB_attr, exMetaB_type,
    show ((exMetaB.source).getD "" != "product_db") = false from by decide,
    show orElseNE exMetaB.product_name
      (orElseNE exMetaB.name (orElseNE exMetaB.product_id "Unknown")) = "B" from by decide,
    show (exMetaB.category).getD "" = "" from by decide,
    show (exMetaB.price).getD "" = "" from by decide,
    applyAttrBoost, applyTypeAdjust, applyBoostKeywords]
  norm_num [pyRound4, pyRoundInt]

theorem exSemAB_eval : semantic_search_products exUpdaterAB "qq" 10 (1/5) true none true =
    [exSemResultA, exSemResultB] := by
  simp only [exUpdaterAB, semantic_search_products,
    show infer_target_categories_from_query "qq" = [] from by decide]
  simp only [semanticCollect, if_true]
  rw [exStepA]
  norm_num [semanticCollect]
  rw [exStepB]
  norm_num [pySortDesc, insertDescBy, dedupLoop, pySlice,
    show exSemResultA.metadata = exMetaA from rfl,
    show exSemResultB.metadata = exMetaB from rfl,
    show exSemResultA.similarity_score = 1/2 from rfl,
    show exSemResultB.similarity_score = 2/5 from rfl]
  simp [show exMetaA.product_id.getD "" = "" from rfl,
    show exMetaB.product_id.getD "" = "" from rfl]

/-- C8 counterexample: two distinct results with missing `product_id` both
appear in the semantic output — results with no id bypass deduplication, so
two results share the (empty) item identity. -/
theorem c8_counterexample :
    (semantic_search_products exUpdaterAB "qq" 10 (1/5) true none true).map
      (fun r => r.metadata.product_id.getD "") = ["", ""] ∧
    (semantic_search_products exUpdaterAB "qq" 10 (1/5) true none true).length = 2 := by
  rw [exSemAB_eval]
  constructor
  · simp only [List.map_cons, List.map_nil]
    exact rfl
  · rfl

-- ========== MERGED-MAP MACHINERY (C4 AND THE HYBRID PART OF C8) ==========

theorem lookup_mem {l : List (String × MergedData)} {k : String} {d : MergedData}
    (h : l.lookup k = some d) : (k, d) ∈ l := by
  induction l with
  | nil => simp [List.lookup] at h
  | cons kv rest ih =>
    obtain ⟨k0, v0⟩ := kv
    by_cases hb : k = k0
    · subst hb
      simp only [List.lookup, beq_self_eq_true] at h
      rw [Option.some_inj] at h
      subst h
      exact List.mem_cons_self _ _
    · simp only [List.lookup, beq_eq_false_iff_ne.mpr hb] at h
      exact List.mem_cons_of_mem _ (ih h)

theorem mem_lookup {l : List (String × MergedData)}
    (hp : l.Pairwise (fun x y => x.1 ≠ y.1)) {k : String} {d : MergedData}
    (hm : (k, d) ∈ l) : l.lookup k = some d := by
  induction l with
  | nil => exact absurd hm (List.not_mem_nil _)
  | cons kv rest ih =>
    obtain ⟨k0, v0⟩ := kv
    rcases List.mem_cons.mp hm with h1 | h2
    · rw [Prod.mk.injEq] at h1
      obtain ⟨hk, hd⟩ := h1
      subst hk; subst hd
      simp [List.lookup]
    · have hk0 : k0 ≠ k := by
        have := (List.pairwise_cons.mp hp).1 (k, d) h2
        simpa using this
      simp only [List.lookup, beq_eq_false_iff_ne.mpr (fun h => hk0 h.symm)]
      exact ih (List.pairwise_cons.mp hp).2 h2

theorem lookup_isSome_eq_any (acc : List (String × MergedData)) (p0 : String) :
    (acc.lookup p0).isSome = acc.any (fun kv => kv.1 == p0) := by
  induction acc with
  | nil => simp [List.lookup]
  | cons kv rest ih =>
    obtain ⟨k0, v0⟩ := kv
    by_cases h : p0 = k0
    · subst h
      simp [List.lookup, List.any_cons]
    · have h2 : ¬ k0 = p0 := fun hh => h hh.symm
      simp only [List.lookup, beq_eq_false_iff_ne.mpr h, List.any_cons,
        beq_eq_false_iff_ne.mpr h2, Bool.false_or]
      exact ih

theorem lookup_cons_self (k : String) (v : MergedData) (rest : List (String × MergedData)) :
    List.lookup k ((k, v) :: rest) = some v := by
  simp [List.lookup]

theorem lookup_cons_ne {k k0 : String} (v : MergedData) (rest : List (String × MergedData))
    (h : k ≠ k0) : List.lookup k ((k0, v) :: rest) = List.lookup k rest := by
  simp [List.lookup, beq_eq_false_iff_ne.mpr h]

theorem map_update_cons (p0 : String) (g : String × MergedData → MergedData) (k0 : String)
    (v0 : MergedData) (rest : List (String × MergedData)) :
    ((k0, v0) :: rest).map (fun kv => if kv.1 == p0 then (kv.1, g kv) else kv) =
      (if k0 == p0 then (k0, g (k0, v0)) else (k0, v0)) ::
        rest.map (fun kv => if kv.1 == p0 then (kv.1, g kv) else kv) := rfl

theorem lookup_map_update (p0 : String) (g : String × MergedData → MergedData) :
    ∀ (acc : List (String × MergedData)) (pid : String),
      (acc.map (fun kv => if kv.1 == p0 then (kv.1, g kv) else kv)).lookup pid =
        if pid = p0 then (acc.lookup pid).map (fun d => g (p0, d)) else acc.lookup pid := by
  intro acc
  induction acc with
  | nil =>
    intro pid
    by_cases h : pid = p0 <;> simp [h, List.lookup]
  | cons kv rest ih =>
    intro pid
    obtain ⟨k0, v0⟩ := kv
    rw [map_update_cons]
    by_cases h0 : k0 = p0
    · subst h0
      rw [if_pos (beq_self_eq_true k0)]
      by_cases hp : pid = k0
      · subst hp
        rw [lookup_cons_self, if_pos rfl, lookup_cons_self]
        rfl
      · rw [lookup_cons_ne _ _ hp, lookup_cons_ne _ _ hp, ih]
    · rw [if_neg (by simp [h0])]
      by_cases hp : pid = k0
      · subst hp
        rw [lookup_cons_self, if_neg h0, lookup_cons_self]
      · rw [lookup_cons_ne _ _ hp, lookup_cons_ne _ _ hp, ih]

theorem listMaxQ_cons (x : ℚ) (l : List ℚ) : listMaxQ (x :: l) = omaxQ (some x) (listMaxQ l) := by
  cases h : listMaxQ l <;> simp [listMaxQ, omaxQ, h]

theorem listMaxQ_mem : ∀ {l : List ℚ} {m : ℚ}, listMaxQ l = some m → m ∈ l := by
  intro l
  induction l with
  | nil => intro m h; simp [listMaxQ] at h
  | cons x xs ih =>
    intro m h
    rw [listMaxQ_cons] at h
    cases hx : listMaxQ xs with
    | none =>
      rw [hx] at h
      simp only [omaxQ, Option.some_inj] at h
      rw [← h]
      exact List.mem_cons_self _ _
    | some y =>
      rw [hx] at h
      simp only [omaxQ, Option.some_inj] at h
      rcases max_choice x y with hc | hc
      · rw [← h, hc]; exact List.mem_cons_self _ _
      · rw [← h, hc]; exact List.mem_cons_of_mem _ (ih hx)

theorem combB_combB (o : Option (ℚ × ℚ)) (s m : Option ℚ) :
    combB (combB o s) m = combB o (omaxQ s m) := by
  cases o <;> cases s <;> cases m <;> simp [combB, omaxQ, max_assoc]

theorem combV_combV (o : Option (ℚ × ℚ)) (s m : Option ℚ) :
    combV (combV o s) m = combV o (omaxQ s m) := by
  cases o <;> cases s <;> cases m <;> simp [combV, omaxQ, max_assoc]

theorem lexScoresFor_cons (po : Bool) (N : ℕ) (e : ℕ × Document) (rest : List (ℕ × Document))
    (pid : String) :
    lexScoresFor po N (e :: rest) pid =
      if lexEligible po e.2 && (e.2.metadata.product_id.getD "" == pid)
        then lexEntryScore N e :: lexScoresFor po N rest pid
        else lexScoresFor po N rest pid := by
  simp only [lexScoresFor, List.filter_cons]
  split <;> simp

theorem vecScoresFor_cons (r : SearchResult) (rest : List SearchResult) (pid : String) :
    vecScoresFor (r :: rest) pid =
      if (r.metadata.product_id.getD "" == pid) && (r.metadata.product_id.getD "" != "")
        then r.similarity_score :: vecScoresFor rest pid
        else vecScoresFor rest pid := by
  simp only [vecScoresFor, pidOf, List.filter_cons]
  split <;> simp


theorem lookup_addBM25 (po : Bool) (N : ℕ) (acc : List (String × MergedData))
    (e : ℕ × Document) (pid : String) :
    projBV ((addBM25 po N acc e).lookup pid) =
      combB (projBV (acc.lookup pid))
        (if lexEligible po e.2 && (e.2.metadata.product_id.getD "" == pid)
          then some (lexEntryScore N e) else none) := by
  simp only [addBM25]
  split
  next hskip =>
    simp only [Bool.and_eq_true, bne_iff_ne] at hskip
    have helig : lexEligible po e.2 = false := by
      simp only [lexEligible, hskip.1]
      simp [beq_eq_false_iff_ne.mpr hskip.2]
    rw [helig]
    simp [combB]
  next hns =>
    split
    next hpe =>
      have hid : e.2.metadata.product_id.getD "" = "" := eq_of_beq hpe
      have helig : (lexEligible po e.2 && (e.2.metadata.product_id.getD "" == pid)) = false := by
        simp [lexEligible, hid]
      rw [helig]
      simp [combB]
    next hpne =>
      have hne : e.2.metadata.product_id.getD "" ≠ "" := by simpa using hpne
      have helig : lexEligible po e.2 = true := by
        simp only [lexEligible]
        have h1 : (!po || e.2.metadata.source == some "product_db") = true := by
          rcases Bool.eq_false_or_eq_true po with hp | hp
          · rw [hp, Bool.true_and] at hns
            have h5 : (e.2.metadata.source != some "product_db") = false := by
              rcases Bool.eq_false_or_eq_true (e.2.metadata.source != some "product_db") with h | h
              · exact absurd h hns
              · exact h
            have h7 : (e.2.metadata.source == some "product_db") = true := by
              simpa [bne] using h5
            simp [eq_of_beq h7]
          · simp [hp]
        rw [h1]
        simp [bne_iff_ne, hne]
      split
      next hany =>
        rw [lookup_map_update]
        by_cases hpid : pid = e.2.metadata.product_id.getD ""
        · rw [if_pos hpid]
          have hsome : (acc.lookup pid).isSome = true := by
            rw [lookup_isSome_eq_any, hpid]
            exact hany
          obtain ⟨d, hd⟩ := Option.isSome_iff_exists.mp hsome
          rw [hd]
          have hcond : (lexEligible po e.2 && (e.2.metadata.product_id.getD "" == pid)) = true := by
            rw [helig, hpid]
            simp
          rw [hcond]
          simp [projBV, combB, lexEntryScore]
        · rw [if_neg hpid]
          have hcond : (lexEligible po e.2 && (e.2.metadata.product_id.getD "" == pid)) = false := by
            have h3 : (e.2.metadata.product_id.getD "" == pid) = false :=
              beq_eq_false_iff_ne.mpr (fun h => hpid h.symm)
            simp [h3]
          rw [hcond]
          simp [combB]
      next hany =>
        rw [List.lookup_append]
        by_cases hpid : pid = e.2.metadata.product_id.getD ""
        · have hnone : acc.lookup pid = none := by
            have h4 : (acc.lookup pid).isSome = false := by
              rw [lookup_isSome_eq_any, hpid]
              exact (Bool.not_eq_true _) ▸ hany
            simpa [Option.isSome_iff_exists] using h4
          rw [hnone, Option.none_or, hpid, lookup_cons_self]
          have hcond : (lexEligible po e.2 &&
              (e.2.metadata.product_id.getD "" == e.2.metadata.product_id.getD "")) = true := by
            rw [helig]
            simp
          rw [hcond]
          simp [projBV, combB, lexEntryScore]
        · rw [lookup_cons_ne _ _ hpid,
            show (List.lookup pid ([] : List (String × MergedData))) = none from rfl,
            Option.or_none]
          have hcond : (lexEligible po e.2 && (e.2.metadata.product_id.getD "" == pid)) = false := by
            have h3 : (e.2.metadata.product_id.getD "" == pid) = false :=
              beq_eq_false_iff_ne.mpr (fun h => hpid h.symm)
            simp [h3]
          rw [hcond]
          simp [combB]

theorem lookup_addVec (acc : List (String × MergedData)) (r : SearchResult) (pid : String) :
    projBV ((addVec acc r).lookup pid) =
      combV (projBV (acc.lookup pid))
        (if (r.metadata.product_id.getD "" == pid) && (r.metadata.product_id.getD "" != "")
          then some r.similarity_score else none) := by
  simp only [addVec]
  split
  next hpe =>
    have hid : r.metadata.product_id.getD "" = "" := eq_of_beq hpe
    have hcond : ((r.metadata.product_id.getD "" == pid) &&
        (r.metadata.product_id.getD "" != "")) = false := by
      simp [hid]
    rw [hcond]
    simp [combV]
  next hpne =>
    have hne : r.metadata.product_id.getD "" ≠ "" := by simpa using hpne
    split
    next hany =>
      rw [lookup_map_update]
      by_cases hpid : pid = r.metadata.product_id.getD ""
      · rw [if_pos hpid]
        have hsome : (acc.lookup pid).isSome = true := by
          rw [lookup_isSome_eq_any, hpid]
          exact hany
        obtain ⟨d, hd⟩ := Option.isSome_iff_exists.mp hsome
        rw [hd]
        have hcond : ((r.metadata.product_id.getD "" == pid) &&
            (r.metadata.product_id.getD "" != "")) = true := by
          simp [hpid, bne_iff_ne, hne]
        rw [hcond]
        simp [projBV, combV]
      · rw [if_neg hpid]
        have hcond : ((r.metadata.product_id.getD "" == pid) &&
            (r.metadata.product_id.getD "" != "")) = false := by
          have h3 : (r.metadata.product_id.getD "" == pid) = false :=
            beq_eq_false_iff_ne.mpr (fun h => hpid h.symm)
          simp [h3]
        rw [hcond]
        simp [combV]
    next hany =>
      rw [List.lookup_append]
      by_cases hpid : pid = r.metadata.product_id.getD ""
      · have hnone : acc.lookup pid = none := by
          have h4 : (acc.lookup pid).isSome = false := by
            rw [lookup_isSome_eq_any, hpid]
            exact (Bool.not_eq_true _) ▸ hany
          simpa [Option.isSome_iff_exists] using h4
        rw [hnone, Option.none_or, hpid, lookup_cons_self]
        have hcond : ((r.metadata.product_id.getD "" == r.metadata.product_id.getD "") &&
            (r.metadata.product_id.getD "" != "")) = true := by
          simp [bne_iff_ne, hne]
        rw [hcond]
        simp [projBV, combV]
      · rw [lookup_cons_ne _ _ hpid,
          show (List.lookup pid ([] : List (String × MergedData))) = none from rfl,
          Option.or_none]
        have hcond : ((r.metadata.product_id.getD "" == pid) &&
            (r.metadata.product_id.getD "" != "")) = false := by
          have h3 : (r.metadata.product_id.getD "" == pid) = false :=
            beq_eq_false_iff_ne.mpr (fun h => hpid h.symm)
          simp [h3]
        rw [hcond]
        simp [combV]

theorem combB_none (o : Option (ℚ × ℚ)) : combB o none = o := by cases o <;> rfl

theorem combV_none (o : Option (ℚ × ℚ)) : combV o none = o := by cases o <;> rfl

theorem lookup_foldl_addBM25 (po : Bool) (N : ℕ) :
    ∀ (slice : List (ℕ × Document)) (acc : List (String × MergedData)) (pid : String),
      projBV ((slice.foldl (addBM25 po N) acc).lookup pid) =
        combB (projBV (acc.lookup pid)) (listMaxQ (lexScoresFor po N slice pid)) := by
  intro slice
  induction slice with
  | nil => intro acc pid; simp [lexScoresFor, listMaxQ, combB_none]
  | cons e rest ih =>
    intro acc pid
    rw [List.foldl_cons, ih, lookup_addBM25, lexScoresFor_cons]
    split
    next h =>
      rw [listMaxQ_cons]
      exact combB_combB _ _ _
    next h => rw [combB_none]

theorem lookup_foldl_addVec :
    ∀ (slice : List SearchResult) (acc : List (String × MergedData)) (pid : String),
      projBV ((slice.foldl addVec acc).lookup pid) =
        combV (projBV (acc.lookup pid)) (listMaxQ (vecScoresFor slice pid)) := by
  intro slice
  induction slice with
  | nil => intro acc pid; simp [vecScoresFor, listMaxQ, combV_none]
  | cons r rest ih =>
    intro acc pid
    rw [List.foldl_cons, ih, lookup_addVec, vecScoresFor_cons]
    split
    next h =>
      rw [listMaxQ_cons]
      exact combV_combV _ _ _
    next h => rw [combV_none]

theorem map_update_preserves (p0 : String) (g : String × MergedData → MergedData)
    (hg : ∀ kv, (g kv).metadata = kv.2.metadata) (acc : List (String × MergedData))
    (h1 : acc.Pairwise (fun x y => x.1 ≠ y.1))
    (h2 : ∀ kv ∈ acc, kv.2.metadata.product_id.getD "" = kv.1 ∧ kv.1 ≠ "") :
    (acc.map (fun kv => if kv.1 == p0 then (kv.1, g kv) else kv)).Pairwise
      (fun x y => x.1 ≠ y.1) ∧
    ∀ kv ∈ acc.map (fun kv => if kv.1 == p0 then (kv.1, g kv) else kv),
      kv.2.metadata.product_id.getD "" = kv.1 ∧ kv.1 ≠ "" := by
  have key_eq : ∀ kv : String × MergedData,
      ((fun kv => if kv.1 == p0 then ((kv.1 : String), g kv) else kv) kv).1 = kv.1 := by
    intro kv
    by_cases h : (kv.1 == p0) = true <;> simp [h]
  constructor
  · rw [List.pairwise_map]
    refine h1.imp ?_
    intro a b hab
    rw [key_eq, key_eq]
    exact hab
  · intro kv hkv
    obtain ⟨kv0, hkv0, heq⟩ := List.mem_map.mp hkv
    obtain ⟨hc1, hc2⟩ := h2 kv0 hkv0
    by_cases h : (kv0.1 == p0) = true
    · rw [if_pos h] at heq
      rw [← heq]
      exact ⟨by rw [hg kv0]; exact hc1, hc2⟩
    · rw [if_neg h] at heq
      rw [← heq]
      exact ⟨hc1, hc2⟩

theorem append_single_preserves (acc : List (String × MergedData)) (p0 : String) (d : MergedData)
    (hany : acc.any (fun kv => kv.1 == p0) = false)
    (hd : d.metadata.product_id.getD "" = p0) (hp0 : p0 ≠ "")
    (h1 : acc.Pairwise (fun x y => x.1 ≠ y.1))
    (h2 : ∀ kv ∈ acc, kv.2.metadata.product_id.getD "" = kv.1 ∧ kv.1 ≠ "") :
    (acc ++ [(p0, d)]).Pairwise (fun x y => x.1 ≠ y.1) ∧
    ∀ kv ∈ acc ++ [(p0, d)], kv.2.metadata.product_id.getD "" = kv.1 ∧ kv.1 ≠ "" := by
  constructor
  · rw [List.pairwise_append]
    refine ⟨h1, List.pairwise_singleton _ _, ?_⟩
    intro a ha b hb
    rw [List.mem_singleton.mp hb]
    have := List.any_eq_false.mp hany a ha
    intro hcontra
    rw [hcontra] at this
    simp at this
  · intro kv hkv
    rcases List.mem_append.mp hkv with hk1 | hk2
    · exact h2 kv hk1
    · rw [List.mem_singleton.mp hk2]
      exact ⟨hd, hp0⟩

theorem addBM25_preserves (po : Bool) (N : ℕ) (acc : List (String × MergedData))
    (e : ℕ × Document)
    (h1 : acc.Pairwise (fun x y => x.1 ≠ y.1))
    (h2 : ∀ kv ∈ acc, kv.2.metadata.product_id.getD "" = kv.1 ∧ kv.1 ≠ "") :
    (addBM25 po N acc e).Pairwise (fun x y => x.1 ≠ y.1) ∧
    ∀ kv ∈ addBM25 po N acc e, kv.2.metadata.product_id.getD "" = kv.1 ∧ kv.1 ≠ "" := by
  simp only [addBM25]
  split
  next => exact ⟨h1, h2⟩
  next =>
    split
    next => exact ⟨h1, h2⟩
    next hpne =>
      split
      next hany =>
        exact map_update_preserves (e.2.metadata.product_id.getD "")
          (fun kv => { kv.2 with
            bm25_score := max kv.2.bm25_score (1 - (e.1 : ℚ) / ((N : ℚ) + 1)) })
          (fun kv => rfl) acc h1 h2
      next hany =>
        refine append_single_preserves acc _ _ ?_ rfl (by simpa using hpne) h1 h2
        exact (Bool.not_eq_true _) ▸ hany

theorem addVec_preserves (acc : List (String × MergedData)) (r : SearchResult)
    (h1 : acc.Pairwise (fun x y => x.1 ≠ y.1))
    (h2 : ∀ kv ∈ acc, kv.2.metadata.product_id.getD "" = kv.1 ∧ kv.1 ≠ "") :
    (addVec acc r).Pairwise (fun x y => x.1 ≠ y.1) ∧
    ∀ kv ∈ addVec acc r, kv.2.metadata.product_id.getD "" = kv.1 ∧ kv.1 ≠ "" := by
  simp only [addVec]
  split
  next => exact ⟨h1, h2⟩
  next hpne =>
    split
    next hany =>
      exact map_update_preserves (r.metadata.product_id.getD "")
        (fun kv => { kv.2 with vector_score := max kv.2.vector_score r.similarity_score })
        (fun kv => rfl) acc h1 h2
    next hany =>
      refine append_single_preserves acc _ _ ?_ rfl (by simpa using hpne) h1 h2
      exact (Bool.not_eq_true _) ▸ hany

theorem foldl_addBM25_preserves (po : Bool) (N : ℕ) :
    ∀ (slice : List (ℕ × Document)) (acc : List (String × MergedData)),
      acc.Pairwise (fun x y => x.1 ≠ y.1) →
      (∀ kv ∈ acc, kv.2.metadata.product_id.getD "" = kv.1 ∧ kv.1 ≠ "") →
      (slice.foldl (addBM25 po N) acc).Pairwise (fun x y => x.1 ≠ y.1) ∧
      ∀ kv ∈ slice.foldl (addBM25 po N) acc,
        kv.2.metadata.product_id.getD "" = kv.1 ∧ kv.1 ≠ "" := by
  intro slice
  induction slice with
  | nil => intro acc h1 h2; exact ⟨h1, h2⟩
  | cons e rest ih =>
    intro acc h1 h2
    rw [List.foldl_cons]
    obtain ⟨g1, g2⟩ := addBM25_preserves po N acc e h1 h2
    exact ih _ g1 g2

theorem foldl_addVec_preserves :
    ∀ (slice : List SearchResult) (acc : List (String × MergedData)),
      acc.Pairwise (fun x y => x.1 ≠ y.1) →
      (∀ kv ∈ acc, kv.2.metadata.product_id.getD "" = kv.1 ∧ kv.1 ≠ "") →
      (slice.foldl addVec acc).Pairwise (fun x y => x.1 ≠ y.1) ∧
      ∀ kv ∈ slice.foldl addVec acc,
        kv.2.metadata.product_id.getD "" = kv.1 ∧ kv.1 ≠ "" := by
  intro slice
  induction slice with
  | nil => intro acc h1 h2; exact ⟨h1, h2⟩
  | cons r rest ih =>
    intro acc h1 h2
    rw [List.foldl_cons]
    obtain ⟨g1, g2⟩ := addVec_preserves acc r h1 h2
    exact ih _ g1 g2

theorem mergedResults_good (po : Bool) (l : List Document) (vres : List SearchResult)
    (limit : ℤ) :
    (mergedResults po l vres limit).Pairwise (fun x y => x.1 ≠ y.1) ∧
    ∀ kv ∈ mergedResults po l vres limit,
      kv.2.metadata.product_id.getD "" = kv.1 ∧ kv.1 ≠ "" := by
  simp only [mergedResults]
  obtain ⟨g1, g2⟩ := foldl_addBM25_preserves po l.length (pySlice (limit * 2) l.enum) []
    List.Pairwise.nil (fun kv hkv => absurd hkv (List.not_mem_nil kv))
  exact foldl_addVec_preserves (pySlice (limit * 2) vres) _ g1 g2

theorem mergedResults_lookup (po : Bool) (l : List Document) (vres : List SearchResult)
    (limit : ℤ) (pid : String) :
    projBV ((mergedResults po l vres limit).lookup pid) =
      combV (combB none (bestLex po l.length (pySlice (limit * 2) l.enum) pid))
        (bestVec (pySlice (limit * 2) vres) pid) := by
  simp only [mergedResults, bestLex, bestVec]
  rw [lookup_foldl_addVec, lookup_foldl_addBM25]
  rfl

-- ========== C4 ==========

/-- C4: for every entry of the merged union, the stored BM25 component is
the maximum rank score among the eligible BM25 documents with that
`product_id` in the merged slice (0 when the id is absent from that path),
the stored vector component is likewise the maximum vector-path score (0
when absent), and every eligible candidate of either path slice has its id
present in the union; the fusion loop then scores
`bm25_score * bm25_weight + vector_score * vector_weight`. -/
theorem c4_fused_components (po : Bool) (l : List Document) (vres : List SearchResult)
    (limit : ℤ) (hv : ∀ r ∈ vres, 0 ≤ r.similarity_score) :
    (∀ kv ∈ mergedResults po l vres limit,
      kv.2.bm25_score = (bestLex po l.length (pySlice (limit * 2) l.enum) kv.1).getD 0 ∧
      kv.2.vector_score = (bestVec (pySlice (limit * 2) vres) kv.1).getD 0) ∧
    (∀ e ∈ pySlice (limit * 2) l.enum, lexEligible po e.2 = true →
      ∃ d, (e.2.metadata.product_id.getD "", d) ∈ mergedResults po l vres limit) ∧
    (∀ r ∈ pySlice (limit * 2) vres, r.metadata.product_id.getD "" ≠ "" →
      ∃ d, (r.metadata.product_id.getD "", d) ∈ mergedResults po l vres limit) := by
  obtain ⟨hp, hcons⟩ := mergedResults_good po l vres limit
  refine ⟨?_, ?_, ?_⟩
  · intro kv hkv
    have hlk : (mergedResults po l vres limit).lookup kv.1 = some kv.2 := mem_lookup hp hkv
    have heq := mergedResults_lookup po l vres limit kv.1
    rw [hlk] at heq
    simp only [projBV, Option.map_some'] at heq
    cases hmb : bestLex po l.length (pySlice (limit * 2) l.enum) kv.1 with
    | none =>
      cases hmv : bestVec (pySlice (limit * 2) vres) kv.1 with
      | none =>
        rw [hmb, hmv] at heq
        simp [combB, combV] at heq
      | some m2 =>
        rw [hmb, hmv] at heq
        simp only [combB, combV, Option.some_inj] at heq
        rw [Prod.mk.injEq] at heq
        exact ⟨heq.1, heq.2⟩
    | some m =>
      cases hmv : bestVec (pySlice (limit * 2) vres) kv.1 with
      | none =>
        rw [hmb, hmv] at heq
        simp only [combB, combV, Option.some_inj] at heq
        rw [Prod.mk.injEq] at heq
        exact ⟨heq.1, heq.2⟩
      | some m2 =>
        rw [hmb, hmv] at heq
        simp only [combB, combV, Option.some_inj] at heq
        rw [Prod.mk.injEq] at heq
        have hm2 : 0 ≤ m2 := by
          have hmem := listMaxQ_mem hmv
          simp only [vecScoresFor, List.mem_map] at hmem
          obtain ⟨r, hr, hsc⟩ := hmem
          have hr2 : r ∈ vres := mem_pySlice (List.mem_filter.mp hr).1
          rw [← hsc]
          exact hv r hr2
        refine ⟨heq.1, ?_⟩
        rw [heq.2, max_eq_right hm2]
        rfl
  · intro e he helig
    have hmem : lexEntryScore l.length e ∈
        lexScoresFor po l.length (pySlice (limit * 2) l.enum) (e.2.metadata.product_id.getD "") := by
      apply List.mem_map_of_mem
      apply List.mem_filter.mpr
      refine ⟨he, ?_⟩
      simp [helig]
    obtain ⟨b, L, hbl⟩ := List.exists_cons_of_ne_nil (List.ne_nil_of_mem hmem)
    have hsome : ∃ m, bestLex po l.length (pySlice (limit * 2) l.enum)
        (e.2.metadata.product_id.getD "") = some m := by
      rw [bestLex, hbl, listMaxQ_cons]
      cases listMaxQ L <;> simp [omaxQ]
    obtain ⟨m, hm⟩ := hsome
    have heq := mergedResults_lookup po l vres limit (e.2.metadata.product_id.getD "")
    rw [hm] at heq
    have hsome2 : ∃ d, (mergedResults po l vres limit).lookup
        (e.2.metadata.product_id.getD "") = some d := by
      cases hlk : (mergedResults po l vres limit).lookup (e.2.metadata.product_id.getD "") with
      | none =>
        rw [hlk] at heq
        simp only [projBV, Option.map_none'] at heq
        cases hmv : bestVec (pySlice (limit * 2) vres) (e.2.metadata.product_id.getD "") with
        | none => rw [hmv] at heq; simp [combB, combV] at heq
        | some m2 => rw [hmv] at heq; simp [combB, combV] at heq
      | some d => exact ⟨d, rfl⟩
    obtain ⟨d, hd⟩ := hsome2
    exact ⟨d, lookup_mem hd⟩
  · intro r hr hrne
    have hmem : r.similarity_score ∈
        vecScoresFor (pySlice (limit * 2) vres) (r.metadata.product_id.getD "") := by
      apply List.mem_map_of_mem
      apply List.mem_filter.mpr
      refine ⟨hr, ?_⟩
      simp [pidOf, bne_iff_ne, hrne]
    obtain ⟨b, L, hbl⟩ := List.exists_cons_of_ne_nil (List.ne_nil_of_mem hmem)
    have hsome : ∃ m, bestVec (pySlice (limit * 2) vres)
        (r.metadata.product_id.getD "") = some m := by
      rw [bestVec, hbl, listMaxQ_cons]
      cases listMaxQ L <;> simp [omaxQ]
    obtain ⟨m, hm⟩ := hsome
    have heq := mergedResults_lookup po l vres limit (r.metadata.product_id.getD "")
    rw [hm] at heq
    have hsome2 : ∃ d, (mergedResults po l vres limit).lookup
        (r.metadata.product_id.getD "") = some d := by
      cases hlk : (mergedResults po l vres limit).lookup (r.metadata.product_id.getD "") with
      | none =>
        rw [hlk] at heq
        simp only [projBV, Option.map_none'] at heq
        cases hmb : bestLex po l.length (pySlice (limit * 2) l.enum)
            (r.metadata.product_id.getD "") with
        | none => rw [hmb] at heq; simp [combB, combV] at heq
        | some m1 => rw [hmb] at heq; simp [combB, combV] at heq
      | some d => exact ⟨d, rfl⟩
    obtain ⟨d, hd⟩ := hsome2
    exact ⟨d, lookup_mem hd⟩

theorem c4_witness :
    (∀ r ∈ [exSemResult2], 0 ≤ r.similarity_score) ∧
    (∀ kv ∈ mergedResults true [exDoc2] [exSemResult2] 10,
      kv.2.bm25_score = (bestLex true [exDoc2].length (pySlice (10 * 2) [exDoc2].enum) kv.1).getD 0 ∧
      kv.2.vector_score = (bestVec (pySlice (10 * 2) [exSemResult2]) kv.1).getD 0) := by
  have hv : ∀ r ∈ [exSemResult2], 0 ≤ r.similarity_score := by
    intro r hr
    rw [List.mem_singleton.mp hr, show exSemResult2.similarity_score = 1 from rfl]
    norm_num
  exact ⟨hv, (c4_fused_components true [exDoc2] [exSemResult2] 10 hv).1⟩

-- ========== C8 (AMENDED) ==========

/-- C8 (amended): in the semantic entry point no two returned results share
a NON-EMPTY `product_id` (the first, highest-ranked occurrence is kept), but
results with a missing or empty `product_id` bypass deduplication entirely
and may repeat; in the hybrid entry point candidates without a `product_id`
are dropped, so all returned ids are distinct. -/
theorem c8_unique_ids :
    (∀ (results : List (Document × ℚ)) (query : String) (limit : ℤ) (t : ℚ) (po : Bool)
        (bk : Option (List String)) (en : Bool),
      List.Pairwise (fun a b => pidOf a = pidOf b → pidOf a = "")
        (semantic_search_products (some (Except.ok results)) query limit t po bk en)) ∧
    (∀ (u : Except Unit (List (Document × ℚ))) (query : String) (limit : ℤ) (t : ℚ) (po : Bool)
        (bw vw : ℚ) (en : Bool) (l : List Document),
      List.Pairwise (fun a b => pidOf a ≠ pidOf b)
        (hybrid_search_products (some u) query limit t po bw vw en (Except.ok l))) := by
  constructor
  · intro results query limit t po bk en
    simp only [semantic_search_products]
    apply List.Pairwise.sublist (pySlice_sublist _ _)
    exact (dedupLoop_pairwise _ []).1
  · intro u query limit t po bw vw en l
    simp only [hybrid_search_products]
    apply List.Pairwise.sublist (pySlice_sublist _ _)
    have hsym : ∀ {x y : SearchResult}, pidOf x ≠ pidOf y → pidOf y ≠ pidOf x :=
      fun h he => h he.symm
    rw [List.Perm.pairwise_iff hsym (pySortDesc_perm _)]
    obtain ⟨hp, hcons⟩ := mergedResults_good po l
      (semantic_search_products (some u) query (limit * 3) t po none en) limit
    rw [List.pairwise_filterMap]
    refine List.Pairwise.imp_of_mem ?_ hp
    intro a b ha hb hab r hr rp hrp
    have h1 := (scoreOne_inv (Option.mem_def.mp hr)).2.2
    have h2 := (scoreOne_inv (Option.mem_def.mp hrp)).2.2
    have hra : pidOf r = a.1 := by rw [pidOf, h1]; exact (hcons a ha).1
    have hrb : pidOf rp = b.1 := by rw [pidOf, h2]; exact (hcons b hb).1
    intro hcontra
    apply hab
    rw [← hra, ← hrb]
    exact hcontra
